import Mathlib

/-!
# opengl-game: a trace model of `src/main.cpp`

The program is a straight-line script of GLFW / OpenGL calls followed by a
frame loop.  The embedding keeps

* the sequence of library calls and of lines written to standard output, in
  program order (`State.calls`);
* the little library state the program's control flow and the stated
  properties depend on: the window's close flag, the state of the escape key,
  the viewport rectangle, and the registered framebuffer-size callback;
* everything the library decides (return values, object names, info logs, the
  events delivered by each `glfwPollEvents`) as the fields of `Env`.

`float` literals are represented by the decimal value written in the source.
-/

namespace OpenGLGame

/-! ## Constants and data -/

/-- Symbolic names of the GLFW / OpenGL constants the program passes. -/
inductive GLconst
  | GLFW_PLATFORM
  | GLFW_PLATFORM_WAYLAND
  | GLFW_CONTEXT_VERSION_MAJOR
  | GLFW_CONTEXT_VERSION_MINOR
  | GLFW_OPENGL_PROFILE
  | GLFW_OPENGL_CORE_PROFILE
  | GLFW_KEY_ESCAPE
  | GL_ARRAY_BUFFER
  | GL_STATIC_DRAW
  | GL_VERTEX_SHADER
  | GL_FRAGMENT_SHADER
  | GL_COMPILE_STATUS
  | GL_LINK_STATUS
  | GL_FLOAT
  | GL_COLOR_BUFFER_BIT
  | GL_TRIANGLES
  deriving DecidableEq, Repr

/-- Value of a window hint: a plain integer or a named constant. -/
inductive HintValue
  | int (n : Int)
  | const (c : GLconst)
  deriving DecidableEq, Repr

/-- Key state as returned by `glfwGetKey`. -/
inductive KeyAction
  | GLFW_RELEASE
  | GLFW_PRESS
  deriving DecidableEq, Repr

/-- Functions of the program whose address is handed to GLFW. -/
inductive Callback
  | framebuffer_size_callback
  deriving DecidableEq, Repr

/-- Address of a `GLFWwindow*` variable.  The only such variable whose address
is taken is the local `window` of `main`; the null address is `none` in
`Option Loc`. -/
inductive Loc
  | mainWindow
  deriving DecidableEq, Repr

/-- Line 10: `const unsigned int SCREEN_WIDTH = 800;` -/
def SCREEN_WIDTH : Nat := 800

/-- Line 11: `const unsigned int SCREEN_HEIGHT = 600;` -/
def SCREEN_HEIGHT : Nat := 600

/-- Size in bytes of a `float` (`GL_FLOAT` is a 32-bit type). -/
def sizeofFloat : Nat := 4

/-- Lines 13-17: the global array `vertices`. -/
def vertices : List ℚ :=
  [-0.5, -0.5, 0.0,
    0.5, -0.5, 0.0,
    0.0,  0.5, 0.0]

/-- The value of `sizeof(vertices)`. -/
def sizeofVertices : Nat := vertices.length * sizeofFloat

/-- Lines 19-23: `vertexShaderSource`, as the C string the pointer denotes (the
explicit `\0` that ends the literal is where the C string stops). -/
def vertexShaderSource : String :=
  "#version 330 core\n" ++
  "layout (location = 0) in vec3 aPos;\n" ++
  "void main() \x7b\n" ++
  "   gl_Position = vec4(aPos.x, aPos.y, aPos.z, 1.0);\n" ++
  "\x7d"

/-- Lines 25-29: `fragmentShaderSource`, as the C string the pointer denotes. -/
def fragmentShaderSource : String :=
  "#version 330 core\n" ++
  "out vec4 FragColor;\n" ++
  "void main() \x7b\n" ++
  "FragColor = vec4(1.0f, 0.5f, 0.2f, 1.0f);\n" ++
  "\x7d"

/-- Line 60: the capacity of `char infoLog[512]`. -/
def infoLogCapacity : Nat := 512

/-! ## Calls, events, environment, state -/

/-- One observable action of the program: a GLFW / OpenGL call with its
arguments, or a statement writing a line to `std::cout`.  Calls that create an
object also record the name the library handed back. -/
inductive Call
  | cout (text : String)
  | glfwInitHint (hint value : GLconst)
  | glfwInit
  | glfwGetError
  | glfwWindowHint (hint : GLconst) (value : HintValue)
  | glfwCreateWindow (width height : Nat) (title : String) (result : Option Nat)
  | glfwTerminate
  | glfwMakeContextCurrent (window : Option Nat)
  | glViewport (x y width height : Int)
  | glfwSetFramebufferSizeCallback (window : Option Nat) (callback : Callback)
  | glGenVertexArrays (n : Nat) (result : Nat)
  | glBindVertexArray (array : Nat)
  | glGenBuffers (n : Nat) (result : Nat)
  | glBindBuffer (target : GLconst) (buffer : Nat)
  | glBufferData (target : GLconst) (size : Nat) (data : List ℚ) (usage : GLconst)
  | glCreateShader (type : GLconst) (result : Nat)
  | glShaderSource (shader : Nat) (count : Nat) (source : String)
  | glCompileShader (shader : Nat)
  | glGetShaderiv (shader : Nat) (pname : GLconst)
  | glGetShaderInfoLog (shader : Nat) (maxLength : Nat)
  | glCreateProgram (result : Nat)
  | glAttachShader (program shader : Nat)
  | glLinkProgram (program : Nat)
  | glGetProgramiv (program : Nat) (pname : GLconst)
  | glGetProgramInfoLog (program : Nat) (maxLength : Nat)
  | glDeleteShader (shader : Nat)
  | glUseProgram (program : Nat)
  | glVertexAttribPointer (index size : Nat) (type : GLconst) (normalized : Bool)
      (stride pointer : Nat)
  | glEnableVertexAttribArray (index : Nat)
  | glfwWindowShouldClose (window : Option Nat)
  | glfwGetKey (window : Option Nat) (key : GLconst)
  | glfwSetWindowShouldClose (window : Option Nat) (value : Bool)
  | glClearColor (red green blue alpha : ℚ)
  | glClear (mask : GLconst)
  | glDrawArrays (mode : GLconst) (first count : Nat)
  | glfwSwapBuffers (window : Option Nat)
  | glfwPollEvents
  | glDeleteVertexArrays (n : Nat) (array : Nat)
  | glDeleteBuffers (n : Nat) (buffer : Nat)
  | glDeleteProgram (program : Nat)
  deriving DecidableEq, Repr

/-- An event processed by `glfwPollEvents`. -/
inductive Event
  /-- The escape key changed state. -/
  | key (action : KeyAction)
  /-- The framebuffer of the window was resized. -/
  | framebufferSize (width height : Int)
  /-- The close flag of the window is written (`true` for a close request). -/
  | shouldClose (value : Bool)
  deriving DecidableEq, Repr

/-- Everything the windowing / graphics backend decides. -/
structure Env where
  /-- Result of `glfwInit()`. -/
  initOk : Bool
  /-- Code returned by `glfwGetError`. -/
  errorCode : Int
  /-- Description written by `glfwGetError`. -/
  errorDescription : String
  /-- Handle returned by `glfwCreateWindow` (`none` is `NULL`). -/
  createdWindow : Option Nat
  /-- Name written by `glGenVertexArrays`. -/
  vertexArray : Nat
  /-- Name written by `glGenBuffers`. -/
  buffer : Nat
  /-- Name returned by `glCreateShader(GL_VERTEX_SHADER)`. -/
  vertexShader : Nat
  /-- Name returned by `glCreateShader(GL_FRAGMENT_SHADER)`. -/
  fragmentShader : Nat
  /-- Name returned by `glCreateProgram()`. -/
  program : Nat
  /-- Compile status of the vertex shader. -/
  vertexCompileStatus : Int
  /-- Compile status of the fragment shader. -/
  fragmentCompileStatus : Int
  /-- Link status of the program. -/
  linkStatus : Int
  /-- Full info log of the vertex shader, one character per `char`. -/
  vertexInfoLog : String
  /-- Full info log of the fragment shader. -/
  fragmentInfoLog : String
  /-- Full info log of the program. -/
  programInfoLog : String
  /-- Events processed by the `n`-th call of `glfwPollEvents` (counted from 0). -/
  pollEvents : Nat → List Event

/-- A viewport rectangle. -/
structure Viewport where
  x : Int
  y : Int
  width : Int
  height : Int
  deriving DecidableEq, Repr

/-- Observable state of a run. -/
structure State where
  /-- Calls made and lines printed so far, oldest first. -/
  calls : List Call
  /-- Contents of the local variable `window` of `main` (`none` is `nullptr`). -/
  window : Option Nat
  /-- Close flag of the window. -/
  shouldClose : Bool
  /-- Last state of the escape key reported to the library. -/
  escapeKey : KeyAction
  /-- Rectangle of the last `glViewport` call, if any. -/
  viewport : Option Viewport
  /-- Registered framebuffer-size callback, if any. -/
  resizeCallback : Option Callback
  /-- Number of `glfwPollEvents` calls made so far. -/
  polls : Nat

/-- State at entry of `main`, including line 32: `GLFWwindow* window = nullptr`. -/
def State.start : State :=
  { calls := [], window := none, shouldClose := false,
    escapeKey := KeyAction.GLFW_RELEASE, viewport := none,
    resizeCallback := none, polls := 0 }

/-! ## Library primitives -/

/-- Record a call. -/
def emit (c : Call) (s : State) : State :=
  { s with calls := s.calls ++ [c] }

/-- A statement `std::cout << ... << std::endl` printing `text`. -/
def cout (text : String) (s : State) : State :=
  emit (Call.cout text) s

/-- Store through a `GLFWwindow**`.  A store through the null address is
undefined in C++ and does not occur in this program (`main` passes the address
of its local); the model leaves the state unchanged there. -/
def store (p : Option Loc) (v : Option Nat) (s : State) : State :=
  match p with
  | some Loc.mainWindow => { s with window := v }
  | none => s

/-- Load through a `GLFWwindow**` (reads `nullptr` for the null address, which
does not occur in this program). -/
def load (p : Option Loc) (s : State) : Option Nat :=
  match p with
  | some Loc.mainWindow => s.window
  | none => none

def glfwInitHint (hint value : GLconst) (s : State) : State :=
  emit (Call.glfwInitHint hint value) s

def glfwInit (env : Env) (s : State) : Bool × State :=
  (env.initOk, emit Call.glfwInit s)

def glfwGetError (env : Env) (s : State) : (Int × String) × State :=
  ((env.errorCode, env.errorDescription), emit Call.glfwGetError s)

def glfwWindowHint (hint : GLconst) (value : HintValue) (s : State) : State :=
  emit (Call.glfwWindowHint hint value) s

def glfwCreateWindow (env : Env) (width height : Nat) (title : String) (s : State) :
    Option Nat × State :=
  (env.createdWindow, emit (Call.glfwCreateWindow width height title env.createdWindow) s)

def glfwTerminate (s : State) : State :=
  emit Call.glfwTerminate s

def glfwMakeContextCurrent (window : Option Nat) (s : State) : State :=
  emit (Call.glfwMakeContextCurrent window) s

/-- `glViewport`: the viewport becomes the requested rectangle. -/
def glViewport (x y width height : Int) (s : State) : State :=
  { emit (Call.glViewport x y width height) s with
    viewport := some { x := x, y := y, width := width, height := height } }

/-- `glfwSetFramebufferSizeCallback`: the callback is registered on the window.
A null handle is outside the library's contract; the call is then only
recorded. -/
def glfwSetFramebufferSizeCallback (window : Option Nat) (cb : Callback) (s : State) :
    State :=
  match window with
  | some _ => { emit (Call.glfwSetFramebufferSizeCallback window cb) s with
                resizeCallback := some cb }
  | none => emit (Call.glfwSetFramebufferSizeCallback window cb) s

/-- `glfwWindowShouldClose`: reads the close flag. -/
def glfwWindowShouldClose (window : Option Nat) (s : State) : Bool × State :=
  (s.shouldClose, emit (Call.glfwWindowShouldClose window) s)

/-- `glfwSetWindowShouldClose`: writes the close flag. -/
def glfwSetWindowShouldClose (window : Option Nat) (value : Bool) (s : State) : State :=
  { emit (Call.glfwSetWindowShouldClose window value) s with shouldClose := value }

/-- `glfwGetKey(window, GLFW_KEY_ESCAPE)`: the last reported state of the key. -/
def glfwGetKey (window : Option Nat) (key : GLconst) (s : State) : KeyAction × State :=
  (s.escapeKey, emit (Call.glfwGetKey window key) s)

/-- Text that `glGet*InfoLog(obj, maxLength, NULL, buf)` leaves in `buf`: at most
`maxLength - 1` characters of the log, followed by the terminator. -/
def truncateLog (maxLength : Nat) (log : String) : String :=
  ⟨log.data.take (maxLength - 1)⟩

/-! ## The program: `framebuffer_size_callback`, `processInput`, `init` -/

/-- Lines 177-179. -/
def framebuffer_size_callback (_window : Option Nat) (width height : Int) (s : State) :
    State :=
  glViewport 0 0 width height s

/-- Run a registered callback. -/
def Callback.run (cb : Callback) (window : Option Nat) (width height : Int) (s : State) :
    State :=
  match cb with
  | Callback.framebuffer_size_callback =>
      OpenGLGame.framebuffer_size_callback window width height s

/-- Effect of one event processed by `glfwPollEvents`. -/
def dispatch (s : State) (e : Event) : State :=
  match e with
  | Event.key action => { s with escapeKey := action }
  | Event.framebufferSize width height =>
      match s.resizeCallback with
      | some cb => cb.run s.window width height s
      | none => s
  | Event.shouldClose value => { s with shouldClose := value }

/-- `glfwPollEvents`: processes the pending events in order, running the
callbacks registered for them. -/
def glfwPollEvents (env : Env) (s : State) : State :=
  let s1 := emit Call.glfwPollEvents s
  (env.pollEvents s.polls).foldl dispatch { s1 with polls := s.polls + 1 }

/-- Lines 171-175. -/
def processInput (window : Option Nat) (s : State) : State :=
  let (k, s) := glfwGetKey window GLconst.GLFW_KEY_ESCAPE s
  if k = KeyAction.GLFW_PRESS then
    glfwSetWindowShouldClose window true s
  else
    s

/-- Lines 134-169.  The parameter `window` is the `GLFWwindow**`. -/
def init (env : Env) (window : Option Loc) (s : State) : Int × State :=
  let s := glfwInitHint GLconst.GLFW_PLATFORM GLconst.GLFW_PLATFORM_WAYLAND s
  let (ok, s) := glfwInit env s
  if !ok then
    let ((code, description), s) := glfwGetError env s
    let s := cout ("Error: Failed to init GLFW\n - (" ++ toString code ++ ") " ++
                   description ++ "\n") s
    (-1, s)
  else
    let s := glfwWindowHint GLconst.GLFW_CONTEXT_VERSION_MAJOR (HintValue.int 3) s
    let s := glfwWindowHint GLconst.GLFW_CONTEXT_VERSION_MINOR (HintValue.int 3) s
    let s := glfwWindowHint GLconst.GLFW_OPENGL_PROFILE
               (HintValue.const GLconst.GLFW_OPENGL_CORE_PROFILE) s
    let (w, s) := glfwCreateWindow env SCREEN_WIDTH SCREEN_HEIGHT "test" s
    let s := store window w s
    if window = none then
      let s := cout "Error: Failed to create GLFW window\n" s
      let s := glfwTerminate s
      (-1, s)
    else
      let s := glfwMakeContextCurrent (load window s) s
      let s := glViewport 0 0 800 600 s
      let s := glfwSetFramebufferSizeCallback (load window s)
                 Callback.framebuffer_size_callback s
      (0, s)

/-! ## Graphics primitives used by pipeline setup, the frame loop and teardown -/

/-- `glGenVertexArrays(n, &out)`: the library writes a name. -/
def glGenVertexArrays (env : Env) (n : Nat) (s : State) : Nat × State :=
  (env.vertexArray, emit (Call.glGenVertexArrays n env.vertexArray) s)

def glBindVertexArray (array : Nat) (s : State) : State :=
  emit (Call.glBindVertexArray array) s

/-- `glGenBuffers(n, &out)`: the library writes a name. -/
def glGenBuffers (env : Env) (n : Nat) (s : State) : Nat × State :=
  (env.buffer, emit (Call.glGenBuffers n env.buffer) s)

def glBindBuffer (target : GLconst) (buffer : Nat) (s : State) : State :=
  emit (Call.glBindBuffer target buffer) s

def glBufferData (target : GLconst) (size : Nat) (data : List ℚ) (usage : GLconst)
    (s : State) : State :=
  emit (Call.glBufferData target size data usage) s

/-- `glCreateShader(type)`: the name of the new shader object; 0 for a type that
is no shader type. -/
def glCreateShader (env : Env) (type : GLconst) (s : State) : Nat × State :=
  let name :=
    match type with
    | GLconst.GL_VERTEX_SHADER => env.vertexShader
    | GLconst.GL_FRAGMENT_SHADER => env.fragmentShader
    | _ => 0
  (name, emit (Call.glCreateShader type name) s)

def glShaderSource (shader count : Nat) (source : String) (s : State) : State :=
  emit (Call.glShaderSource shader count source) s

def glCompileShader (shader : Nat) (s : State) : State :=
  emit (Call.glCompileShader shader) s

/-- `glGetShaderiv(shader, pname, &out)`; `status` is the value the library
writes. -/
def glGetShaderiv (status : Int) (shader : Nat) (pname : GLconst) (s : State) :
    Int × State :=
  (status, emit (Call.glGetShaderiv shader pname) s)

/-- `glGetShaderInfoLog(shader, maxLength, NULL, buf)`; `log` is the full info log
the library holds, the result is the text left in `buf`. -/
def glGetShaderInfoLog (log : String) (shader maxLength : Nat) (s : State) :
    String × State :=
  (truncateLog maxLength log, emit (Call.glGetShaderInfoLog shader maxLength) s)

def glCreateProgram (env : Env) (s : State) : Nat × State :=
  (env.program, emit (Call.glCreateProgram env.program) s)

def glAttachShader (program shader : Nat) (s : State) : State :=
  emit (Call.glAttachShader program shader) s

def glLinkProgram (program : Nat) (s : State) : State :=
  emit (Call.glLinkProgram program) s

/-- `glGetProgramiv(program, pname, &out)`; `status` is the value the library
writes. -/
def glGetProgramiv (status : Int) (program : Nat) (pname : GLconst) (s : State) :
    Int × State :=
  (status, emit (Call.glGetProgramiv program pname) s)

/-- `glGetProgramInfoLog(program, maxLength, NULL, buf)`. -/
def glGetProgramInfoLog (log : String) (program maxLength : Nat) (s : State) :
    String × State :=
  (truncateLog maxLength log, emit (Call.glGetProgramInfoLog program maxLength) s)

def glDeleteShader (shader : Nat) (s : State) : State :=
  emit (Call.glDeleteShader shader) s

def glUseProgram (program : Nat) (s : State) : State :=
  emit (Call.glUseProgram program) s

def glVertexAttribPointer (index size : Nat) (type : GLconst) (normalized : Bool)
    (stride pointer : Nat) (s : State) : State :=
  emit (Call.glVertexAttribPointer index size type normalized stride pointer) s

def glEnableVertexAttribArray (index : Nat) (s : State) : State :=
  emit (Call.glEnableVertexAttribArray index) s

def glClearColor (red green blue alpha : ℚ) (s : State) : State :=
  emit (Call.glClearColor red green blue alpha) s

def glClear (mask : GLconst) (s : State) : State :=
  emit (Call.glClear mask) s

def glDrawArrays (mode : GLconst) (first count : Nat) (s : State) : State :=
  emit (Call.glDrawArrays mode first count) s

def glfwSwapBuffers (window : Option Nat) (s : State) : State :=
  emit (Call.glfwSwapBuffers window) s

def glDeleteVertexArrays (n array : Nat) (s : State) : State :=
  emit (Call.glDeleteVertexArrays n array) s

def glDeleteBuffers (n buffer : Nat) (s : State) : State :=
  emit (Call.glDeleteBuffers n buffer) s

def glDeleteProgram (program : Nat) (s : State) : State :=
  emit (Call.glDeleteProgram program) s

/-! ## The program: `main` -/

/-- The object names held in the locals of `main` once setup is done. -/
structure Locals where
  VAO : Nat
  VBO : Nat
  vertexShader : Nat
  fragmentShader : Nat
  shaderProgram : Nat
  deriving DecidableEq, Repr

/-- Lines 32-36 of `main`: the call of `init` on the address of `window`. -/
def bootstrap (env : Env) (s : State) : State :=
  let (status, s) := init env (some Loc.mainWindow) s
  if status ≠ 0 then
    cout "Error: Initialization failed\n" s
  else
    s

/-- Lines 38-102 of `main`: one-time pipeline setup. -/
def setup (env : Env) (s : State) : Locals × State :=
  let (VAO, s) := glGenVertexArrays env 1 s
  let s := glBindVertexArray VAO s
  let (VBO, s) := glGenBuffers env 1 s
  let s := glBindBuffer GLconst.GL_ARRAY_BUFFER VBO s
  let s := glBufferData GLconst.GL_ARRAY_BUFFER sizeofVertices vertices
             GLconst.GL_STATIC_DRAW s
  let (vertexShader, s) := glCreateShader env GLconst.GL_VERTEX_SHADER s
  let s := glShaderSource vertexShader 1 vertexShaderSource s
  let s := glCompileShader vertexShader s
  let (success, s) :=
    glGetShaderiv env.vertexCompileStatus vertexShader GLconst.GL_COMPILE_STATUS s
  let s :=
    if success = 0 then
      let (infoLog, s) := glGetShaderInfoLog env.vertexInfoLog vertexShader 512 s
      cout ("Error: Vertex shader compilation failed\n" ++ infoLog ++ "\n") s
    else s
  let (fragmentShader, s) := glCreateShader env GLconst.GL_FRAGMENT_SHADER s
  let s := glShaderSource fragmentShader 1 fragmentShaderSource s
  let s := glCompileShader fragmentShader s
  let (success, s) :=
    glGetShaderiv env.fragmentCompileStatus fragmentShader GLconst.GL_COMPILE_STATUS s
  let s :=
    if success = 0 then
      let (infoLog, s) := glGetShaderInfoLog env.fragmentInfoLog fragmentShader 512 s
      cout ("Error: Fragment shader compilation failed\n" ++ infoLog ++ "\n") s
    else s
  let (shaderProgram, s) := glCreateProgram env s
  let s := glAttachShader shaderProgram vertexShader s
  let s := glAttachShader shaderProgram fragmentShader s
  let s := glLinkProgram shaderProgram s
  let (success, s) :=
    glGetProgramiv env.linkStatus shaderProgram GLconst.GL_LINK_STATUS s
  let s :=
    if success = 0 then
      let (infoLog, s) := glGetProgramInfoLog env.programInfoLog shaderProgram 512 s
      cout ("Error: Shader program link failed\n" ++ infoLog ++ "\n") s
    else s
  let s := glDeleteShader vertexShader s
  let s := glDeleteShader fragmentShader s
  let s := glUseProgram shaderProgram s
  let s := glVertexAttribPointer 0 3 GLconst.GL_FLOAT false (3 * sizeofFloat) 0 s
  let s := glEnableVertexAttribArray 0 s
  ({ VAO := VAO, VBO := VBO, vertexShader := vertexShader,
     fragmentShader := fragmentShader, shaderProgram := shaderProgram }, s)

/-- Lines 108-122 of `main`: the body of the frame loop. -/
def frame (env : Env) (v : Locals) (s : State) : State :=
  let s := processInput s.window s
  let s := glClearColor 0.2 0.3 0.3 1.0 s
  let s := glClear GLconst.GL_COLOR_BUFFER_BIT s
  let s := glUseProgram v.shaderProgram s
  let s := glBindVertexArray v.VAO s
  let s := glDrawArrays GLconst.GL_TRIANGLES 0 3 s
  let s := glBindVertexArray 0 s
  let s := glfwSwapBuffers s.window s
  glfwPollEvents env s

/-- Lines 106-123 of `main`: `while(!glfwWindowShouldClose(window)) body`.
`fuel` bounds the number of iterations; `none` means the loop is still running
when the fuel is used up. -/
def loop (env : Env) (v : Locals) : Nat → State → Option State
  | fuel, s =>
    let (close, s) := glfwWindowShouldClose s.window s
    if close then
      some s
    else
      match fuel with
      | 0 => none
      | fuel + 1 => loop env v fuel (frame env v s)

/-- Lines 125-131 of `main`: teardown and the returned exit code. -/
def teardown (v : Locals) (s : State) : Int × State :=
  let s := glDeleteVertexArrays 1 v.VAO s
  let s := glDeleteBuffers 1 v.VBO s
  let s := glDeleteProgram v.shaderProgram s
  let s := glfwTerminate s
  (0, s)

/-- Lines 31-132: `main`.  The result is the exit code and the final state, or
`none` when the frame loop is still running after `fuel` iterations. -/
def main (env : Env) (fuel : Nat) : Option (Int × State) :=
  let s := bootstrap env State.start
  let (v, s) := setup env s
  match loop env v fuel s with
  | none => none
  | some s => some (teardown v s)

/-- One pass of the loop: the test `glfwWindowShouldClose(window)` followed by
the body, whatever the test reads. -/
def pass (env : Env) (v : Locals) (s : State) : State :=
  frame env v (glfwWindowShouldClose s.window s).2

/-- State reached after `n` passes of the loop. -/
def iterations (env : Env) (v : Locals) (n : Nat) (s : State) : State :=
  (pass env v)^[n] s

/-! ## Vocabulary of the properties -/

/-- The `glViewport` calls made by the framebuffer-size callback while the
events `evs` are processed, given the registered callback. -/
def resizeCalls (cb : Option Callback) (evs : List Event) : List Call :=
  match cb with
  | none => []
  | some Callback.framebuffer_size_callback =>
      evs.filterMap fun e =>
        match e with
        | Event.framebufferSize width height => some (Call.glViewport 0 0 width height)
        | _ => none

/-- The calls of one execution of the loop body started in state `s`, in order. -/
def frameCalls (env : Env) (v : Locals) (s : State) : List Call :=
  [Call.glfwGetKey s.window GLconst.GLFW_KEY_ESCAPE] ++
  (if s.escapeKey = KeyAction.GLFW_PRESS then
     [Call.glfwSetWindowShouldClose s.window true] else []) ++
  [Call.glClearColor 0.2 0.3 0.3 1.0,
   Call.glClear GLconst.GL_COLOR_BUFFER_BIT,
   Call.glUseProgram v.shaderProgram,
   Call.glBindVertexArray v.VAO,
   Call.glDrawArrays GLconst.GL_TRIANGLES 0 3,
   Call.glBindVertexArray 0,
   Call.glfwSwapBuffers s.window,
   Call.glfwPollEvents] ++
  resizeCalls s.resizeCallback (env.pollEvents s.polls)

/-- The calls of one pass of the loop started in state `s`: the loop test, then
the body. -/
def passCalls (env : Env) (v : Locals) (s : State) : List Call :=
  Call.glfwWindowShouldClose s.window :: frameCalls env v s

/-- The calls of the first `n` passes of the loop started in state `s`. -/
def loopCalls (env : Env) (v : Locals) (n : Nat) (s : State) : List Call :=
  (List.range n).flatMap fun k => passCalls env v (iterations env v k s)

/-- The calls of pipeline setup up to and including the link check. -/
def buildCalls (env : Env) : List Call :=
  [Call.glGenVertexArrays 1 env.vertexArray,
   Call.glBindVertexArray env.vertexArray,
   Call.glGenBuffers 1 env.buffer,
   Call.glBindBuffer GLconst.GL_ARRAY_BUFFER env.buffer,
   Call.glBufferData GLconst.GL_ARRAY_BUFFER 36 vertices GLconst.GL_STATIC_DRAW,
   Call.glCreateShader GLconst.GL_VERTEX_SHADER env.vertexShader,
   Call.glShaderSource env.vertexShader 1 vertexShaderSource,
   Call.glCompileShader env.vertexShader,
   Call.glGetShaderiv env.vertexShader GLconst.GL_COMPILE_STATUS] ++
  (if env.vertexCompileStatus = 0 then
     [Call.glGetShaderInfoLog env.vertexShader 512,
      Call.cout ("Error: Vertex shader compilation failed\n" ++
        truncateLog 512 env.vertexInfoLog ++ "\n")]
   else []) ++
  [Call.glCreateShader GLconst.GL_FRAGMENT_SHADER env.fragmentShader,
   Call.glShaderSource env.fragmentShader 1 fragmentShaderSource,
   Call.glCompileShader env.fragmentShader,
   Call.glGetShaderiv env.fragmentShader GLconst.GL_COMPILE_STATUS] ++
  (if env.fragmentCompileStatus = 0 then
     [Call.glGetShaderInfoLog env.fragmentShader 512,
      Call.cout ("Error: Fragment shader compilation failed\n" ++
        truncateLog 512 env.fragmentInfoLog ++ "\n")]
   else []) ++
  [Call.glCreateProgram env.program,
   Call.glAttachShader env.program env.vertexShader,
   Call.glAttachShader env.program env.fragmentShader,
   Call.glLinkProgram env.program,
   Call.glGetProgramiv env.program GLconst.GL_LINK_STATUS] ++
  (if env.linkStatus = 0 then
     [Call.glGetProgramInfoLog env.program 512,
      Call.cout ("Error: Shader program link failed\n" ++
        truncateLog 512 env.programInfoLog ++ "\n")]
   else [])

/-- The calls of pipeline setup after the link check. -/
def finishCalls (env : Env) : List Call :=
  [Call.glDeleteShader env.vertexShader,
   Call.glDeleteShader env.fragmentShader,
   Call.glUseProgram env.program,
   Call.glVertexAttribPointer 0 3 GLconst.GL_FLOAT false 12 0,
   Call.glEnableVertexAttribArray 0]

/-- The object names pipeline setup leaves in the locals of `main`. -/
def setupLocals (env : Env) : Locals :=
  { VAO := env.vertexArray, VBO := env.buffer, vertexShader := env.vertexShader,
    fragmentShader := env.fragmentShader, shaderProgram := env.program }

/-- The calls of teardown. -/
def teardownCalls (v : Locals) : List Call :=
  [Call.glDeleteVertexArrays 1 v.VAO,
   Call.glDeleteBuffers 1 v.VBO,
   Call.glDeleteProgram v.shaderProgram,
   Call.glfwTerminate]

/-- Whether an action is a line written to standard output. -/
def Call.isOutput : Call → Bool
  | Call.cout _ => true
  | _ => false

/-- Whether a call is a draw call. -/
def Call.isDraw : Call → Bool
  | Call.glDrawArrays _ _ _ => true
  | _ => false

/-- Name spaces of graphics-object names.  Shader and program objects share one
name space in OpenGL. -/
inductive HandleKind
  | vertexArray
  | buffer
  | shaderOrProgram
  deriving DecidableEq, Repr

/-- A graphics-object handle: a name in a name space. -/
structure Handle where
  kind : HandleKind
  name : Nat
  deriving DecidableEq, Repr

/-- The handle a call creates, if any. -/
def Call.created : Call → Option Handle
  | Call.glGenVertexArrays _ r => some ⟨HandleKind.vertexArray, r⟩
  | Call.glGenBuffers _ r => some ⟨HandleKind.buffer, r⟩
  | Call.glCreateShader _ r => some ⟨HandleKind.shaderOrProgram, r⟩
  | Call.glCreateProgram r => some ⟨HandleKind.shaderOrProgram, r⟩
  | _ => none

/-- The handle a call releases, if any. -/
def Call.released : Call → Option Handle
  | Call.glDeleteVertexArrays _ a => some ⟨HandleKind.vertexArray, a⟩
  | Call.glDeleteBuffers _ b => some ⟨HandleKind.buffer, b⟩
  | Call.glDeleteShader sh => some ⟨HandleKind.shaderOrProgram, sh⟩
  | Call.glDeleteProgram p => some ⟨HandleKind.shaderOrProgram, p⟩
  | _ => none

/-- The handles a call names in its arguments. -/
def Call.uses : Call → List Handle
  | Call.glBindVertexArray a => [⟨HandleKind.vertexArray, a⟩]
  | Call.glDeleteVertexArrays _ a => [⟨HandleKind.vertexArray, a⟩]
  | Call.glBindBuffer _ b => [⟨HandleKind.buffer, b⟩]
  | Call.glDeleteBuffers _ b => [⟨HandleKind.buffer, b⟩]
  | Call.glShaderSource sh _ _ => [⟨HandleKind.shaderOrProgram, sh⟩]
  | Call.glCompileShader sh => [⟨HandleKind.shaderOrProgram, sh⟩]
  | Call.glGetShaderiv sh _ => [⟨HandleKind.shaderOrProgram, sh⟩]
  | Call.glGetShaderInfoLog sh _ => [⟨HandleKind.shaderOrProgram, sh⟩]
  | Call.glDeleteShader sh => [⟨HandleKind.shaderOrProgram, sh⟩]
  | Call.glAttachShader p sh =>
      [⟨HandleKind.shaderOrProgram, p⟩, ⟨HandleKind.shaderOrProgram, sh⟩]
  | Call.glLinkProgram p => [⟨HandleKind.shaderOrProgram, p⟩]
  | Call.glGetProgramiv p _ => [⟨HandleKind.shaderOrProgram, p⟩]
  | Call.glGetProgramInfoLog p _ => [⟨HandleKind.shaderOrProgram, p⟩]
  | Call.glUseProgram p => [⟨HandleKind.shaderOrProgram, p⟩]
  | Call.glDeleteProgram p => [⟨HandleKind.shaderOrProgram, p⟩]
  | _ => []

/-- Call `c` releases a handle that the later call `d` names. -/
def usesReleased (c d : Call) : Bool :=
  match c.released with
  | some h => d.uses.contains h
  | none => false

/-- No call of the trace names a handle that an earlier call released. -/
def noUseAfterRelease (t : List Call) : Prop :=
  t.Pairwise fun c d => usesReleased c d = false

instance (t : List Call) : Decidable (noUseAfterRelease t) := by
  unfold noUseAfterRelease
  infer_instance

/-- A call that names neither shader. -/
def shaderFree (env : Env) (d : Call) : Prop :=
  ∀ x ∈ d.uses, x ≠ ⟨HandleKind.shaderOrProgram, env.vertexShader⟩ ∧
    x ≠ ⟨HandleKind.shaderOrProgram, env.fragmentShader⟩

/-- Framebuffer size after an event, given the size before it. -/
def framebufferAfter (size : Int × Int) (e : Event) : Int × Int :=
  match e with
  | Event.framebufferSize width height => (width, height)
  | _ => size

/-- Framebuffer size after a sequence of events. -/
def latestFramebuffer (size : Int × Int) (evs : List Event) : Int × Int :=
  evs.foldl framebufferAfter size

/-- The events processed by the first `n` calls of `glfwPollEvents`. -/
def polledEvents (env : Env) (n : Nat) : List Event :=
  (List.range n).flatMap env.pollEvents

/-- Byte range `[lo, hi)` of the bound buffer read for vertex `i` through an
attribute of `size` float components declared with byte `stride` and byte offset
`pointer`. -/
def fetchRange (size stride pointer i : Nat) : Nat × Nat :=
  (pointer + stride * i, pointer + stride * i + size * sizeofFloat)

/-! ## Sample environments -/

/-- A backend on which everything succeeds; the escape key is reported pressed
by the first event poll. -/
def envPlay : Env :=
  { initOk := true, errorCode := 0, errorDescription := "",
    createdWindow := some 7,
    vertexArray := 1, buffer := 1, vertexShader := 1, fragmentShader := 2, program := 3,
    vertexCompileStatus := 1, fragmentCompileStatus := 1, linkStatus := 1,
    vertexInfoLog := "", fragmentInfoLog := "", programInfoLog := "",
    pollEvents := fun n =>
      if n = 0 then [Event.framebufferSize 1024 768, Event.key KeyAction.GLFW_PRESS]
      else [] }

/-- A backend whose `glfwInit` fails. -/
def envInitFails : Env :=
  { envPlay with
    initOk := false, errorCode := 65550,
    errorDescription := "Wayland: Failed to connect to display",
    createdWindow := none,
    pollEvents := fun _ => [] }

/-- A backend whose `glfwInit` succeeds and whose `glfwCreateWindow` returns
`NULL`. -/
def envNoWindow : Env :=
  { envPlay with createdWindow := none, pollEvents := fun _ => [] }

/-- A backend on which both shaders fail to compile and the program fails to
link. -/
def envBadShaders : Env :=
  { envPlay with
    vertexCompileStatus := 0, fragmentCompileStatus := 0, linkStatus := 0,
    vertexInfoLog := "0:1(1): error: unexpected token",
    fragmentInfoLog := "0:2(1): error: unexpected token",
    programInfoLog := "error: linking with uncompiled shader" }

/-- A state in which the escape key is reported pressed. -/
def pressedState : State :=
  { State.start with window := some 7, escapeKey := KeyAction.GLFW_PRESS }


/-! ## Bootstrap -/

theorem init_failure_eq (env : Env) (s : State) (h : env.initOk = false) :
    init env (some Loc.mainWindow) s =
      (-1, { s with calls := s.calls ++
              [Call.glfwInitHint GLconst.GLFW_PLATFORM GLconst.GLFW_PLATFORM_WAYLAND,
               Call.glfwInit,
               Call.glfwGetError,
               Call.cout ("Error: Failed to init GLFW\n - (" ++ toString env.errorCode
                 ++ ") " ++ env.errorDescription ++ "\n")] }) := by
  simp [init, glfwInitHint, glfwInit, glfwGetError, cout, emit, h]

theorem init_success_eq (env : Env) (s : State) (w : Nat) (h : env.initOk = true)
    (hw : env.createdWindow = some w) :
    init env (some Loc.mainWindow) s =
      (0, { s with
            calls := s.calls ++
              [Call.glfwInitHint GLconst.GLFW_PLATFORM GLconst.GLFW_PLATFORM_WAYLAND,
               Call.glfwInit,
               Call.glfwWindowHint GLconst.GLFW_CONTEXT_VERSION_MAJOR (HintValue.int 3),
               Call.glfwWindowHint GLconst.GLFW_CONTEXT_VERSION_MINOR (HintValue.int 3),
               Call.glfwWindowHint GLconst.GLFW_OPENGL_PROFILE
                 (HintValue.const GLconst.GLFW_OPENGL_CORE_PROFILE),
               Call.glfwCreateWindow 800 600 "test" (some w),
               Call.glfwMakeContextCurrent (some w),
               Call.glViewport 0 0 800 600,
               Call.glfwSetFramebufferSizeCallback (some w)
                 Callback.framebuffer_size_callback],
            window := some w,
            viewport := some { x := 0, y := 0, width := 800, height := 600 },
            resizeCallback := some Callback.framebuffer_size_callback }) := by
  simp [init, glfwInitHint, glfwInit, glfwWindowHint, glfwCreateWindow, store, load,
    glfwMakeContextCurrent, glViewport, glfwSetFramebufferSizeCallback, emit, h, hw,
    SCREEN_WIDTH, SCREEN_HEIGHT]

/-! ## Event dispatch -/

theorem dispatch_window (s : State) (e : Event) : (dispatch s e).window = s.window := by
  cases e <;> simp [dispatch]
  cases h : s.resizeCallback with
  | none => rfl
  | some cb => cases cb; simp [Callback.run, framebuffer_size_callback, glViewport, emit]

theorem dispatch_resizeCallback (s : State) (e : Event) :
    (dispatch s e).resizeCallback = s.resizeCallback := by
  cases e <;> simp [dispatch]
  cases h : s.resizeCallback with
  | none => simp [h]
  | some cb => cases cb; simp [Callback.run, framebuffer_size_callback, glViewport, emit, h]

theorem dispatch_polls (s : State) (e : Event) : (dispatch s e).polls = s.polls := by
  cases e <;> simp [dispatch]
  cases h : s.resizeCallback with
  | none => rfl
  | some cb => cases cb; simp [Callback.run, framebuffer_size_callback, glViewport, emit]

theorem dispatch_calls (s : State) (e : Event) :
    (dispatch s e).calls = s.calls ++ resizeCalls s.resizeCallback [e] := by
  cases e <;> cases h : s.resizeCallback with
  | none => simp [dispatch, resizeCalls, h]
  | some cb =>
    cases cb
    simp [dispatch, resizeCalls, h, Callback.run, framebuffer_size_callback, glViewport, emit]

theorem dispatch_shouldClose (s : State) (e : Event) (he : e ≠ Event.shouldClose false)
    (h : s.shouldClose = true) : (dispatch s e).shouldClose = true := by
  cases e with
  | key a => simpa [dispatch] using h
  | framebufferSize w ht =>
    cases hc : s.resizeCallback with
    | none => simpa [dispatch, hc] using h
    | some cb =>
      cases cb
      simpa [dispatch, hc, Callback.run, framebuffer_size_callback, glViewport, emit] using h
  | shouldClose b =>
    cases b with
    | true => simp [dispatch]
    | false => exact absurd rfl he

theorem dispatch_viewport (s : State) (e : Event) (size : Int × Int)
    (hcb : s.resizeCallback = some Callback.framebuffer_size_callback)
    (h : s.viewport = some { x := 0, y := 0, width := size.1, height := size.2 }) :
    (dispatch s e).viewport =
      some { x := 0, y := 0, width := (framebufferAfter size e).1,
             height := (framebufferAfter size e).2 } := by
  cases e with
  | key a => simpa [dispatch, framebufferAfter] using h
  | framebufferSize w ht =>
    simp [dispatch, hcb, Callback.run, framebuffer_size_callback, glViewport, emit,
      framebufferAfter]
  | shouldClose b => simpa [dispatch, framebufferAfter] using h

theorem resizeCalls_nil (cb : Option Callback) : resizeCalls cb [] = [] := by
  cases cb with
  | none => rfl
  | some c => cases c; rfl

theorem resizeCalls_cons (cb : Option Callback) (e : Event) (evs : List Event) :
    resizeCalls cb (e :: evs) = resizeCalls cb [e] ++ resizeCalls cb evs := by
  cases cb with
  | none => rfl
  | some c =>
    cases c
    cases e <;> simp [resizeCalls, List.filterMap_cons]

theorem foldl_dispatch_window (evs : List Event) (s : State) :
    (evs.foldl dispatch s).window = s.window := by
  induction evs generalizing s with
  | nil => rfl
  | cons e evs ih => rw [List.foldl_cons, ih, dispatch_window]

theorem foldl_dispatch_resizeCallback (evs : List Event) (s : State) :
    (evs.foldl dispatch s).resizeCallback = s.resizeCallback := by
  induction evs generalizing s with
  | nil => rfl
  | cons e evs ih => rw [List.foldl_cons, ih, dispatch_resizeCallback]

theorem foldl_dispatch_polls (evs : List Event) (s : State) :
    (evs.foldl dispatch s).polls = s.polls := by
  induction evs generalizing s with
  | nil => rfl
  | cons e evs ih => rw [List.foldl_cons, ih, dispatch_polls]

theorem foldl_dispatch_calls (evs : List Event) (s : State) :
    (evs.foldl dispatch s).calls = s.calls ++ resizeCalls s.resizeCallback evs := by
  induction evs generalizing s with
  | nil => simp [resizeCalls_nil]
  | cons e evs ih =>
    rw [List.foldl_cons, ih, dispatch_calls, dispatch_resizeCallback,
      resizeCalls_cons s.resizeCallback e evs, List.append_assoc]

theorem foldl_dispatch_shouldClose (evs : List Event) (s : State)
    (hev : ∀ e ∈ evs, e ≠ Event.shouldClose false) (h : s.shouldClose = true) :
    (evs.foldl dispatch s).shouldClose = true := by
  induction evs generalizing s with
  | nil => simpa using h
  | cons e evs ih =>
    rw [List.foldl_cons]
    exact ih _ (fun e1 h1 => hev e1 (List.mem_cons_of_mem _ h1))
      (dispatch_shouldClose s e (hev e (List.mem_cons_self _ _)) h)

theorem foldl_dispatch_viewport (evs : List Event) (s : State) (size : Int × Int)
    (hcb : s.resizeCallback = some Callback.framebuffer_size_callback)
    (h : s.viewport = some { x := 0, y := 0, width := size.1, height := size.2 }) :
    (evs.foldl dispatch s).viewport =
      some { x := 0, y := 0, width := (latestFramebuffer size evs).1,
             height := (latestFramebuffer size evs).2 } := by
  induction evs generalizing s size with
  | nil => simpa [latestFramebuffer] using h
  | cons e evs ih =>
    rw [List.foldl_cons]
    have := ih (dispatch s e) (framebufferAfter size e)
      (by rw [dispatch_resizeCallback, hcb]) (dispatch_viewport s e size hcb h)
    simpa [latestFramebuffer] using this

/-! ## The loop body -/

theorem frame_eq (env : Env) (v : Locals) (s : State) :
    frame env v s =
      (env.pollEvents s.polls).foldl dispatch
        { s with
          calls := s.calls ++
            ([Call.glfwGetKey s.window GLconst.GLFW_KEY_ESCAPE] ++
             (if s.escapeKey = KeyAction.GLFW_PRESS then
                [Call.glfwSetWindowShouldClose s.window true] else []) ++
             [Call.glClearColor 0.2 0.3 0.3 1.0,
              Call.glClear GLconst.GL_COLOR_BUFFER_BIT,
              Call.glUseProgram v.shaderProgram,
              Call.glBindVertexArray v.VAO,
              Call.glDrawArrays GLconst.GL_TRIANGLES 0 3,
              Call.glBindVertexArray 0,
              Call.glfwSwapBuffers s.window,
              Call.glfwPollEvents]),
          shouldClose := if s.escapeKey = KeyAction.GLFW_PRESS then true else s.shouldClose,
          polls := s.polls + 1 } := by
  by_cases hk : s.escapeKey = KeyAction.GLFW_PRESS <;>
    simp [frame, processInput, glfwGetKey, glfwSetWindowShouldClose, glClearColor, glClear,
      glUseProgram, glBindVertexArray, glDrawArrays, glfwSwapBuffers, glfwPollEvents, emit, hk]

theorem frame_calls (env : Env) (v : Locals) (s : State) :
    (frame env v s).calls = s.calls ++ frameCalls env v s := by
  rw [frame_eq, foldl_dispatch_calls]
  simp [frameCalls, List.append_assoc]

theorem frame_window (env : Env) (v : Locals) (s : State) :
    (frame env v s).window = s.window := by
  rw [frame_eq, foldl_dispatch_window]

theorem frame_resizeCallback (env : Env) (v : Locals) (s : State) :
    (frame env v s).resizeCallback = s.resizeCallback := by
  rw [frame_eq, foldl_dispatch_resizeCallback]

theorem frame_polls (env : Env) (v : Locals) (s : State) :
    (frame env v s).polls = s.polls + 1 := by
  rw [frame_eq, foldl_dispatch_polls]

theorem frame_shouldClose (env : Env) (v : Locals) (s : State)
    (hk : s.escapeKey = KeyAction.GLFW_PRESS)
    (hev : ∀ e ∈ env.pollEvents s.polls, e ≠ Event.shouldClose false) :
    (frame env v s).shouldClose = true := by
  rw [frame_eq]
  exact foldl_dispatch_shouldClose _ _ hev (by simp [hk])

theorem frame_viewport (env : Env) (v : Locals) (s : State) (size : Int × Int)
    (hcb : s.resizeCallback = some Callback.framebuffer_size_callback)
    (h : s.viewport = some { x := 0, y := 0, width := size.1, height := size.2 }) :
    (frame env v s).viewport =
      some { x := 0, y := 0,
             width := (latestFramebuffer size (env.pollEvents s.polls)).1,
             height := (latestFramebuffer size (env.pollEvents s.polls)).2 } := by
  rw [frame_eq]
  exact foldl_dispatch_viewport _ _ size hcb h

/-! ## The loop -/

theorem pass_calls (env : Env) (v : Locals) (s : State) :
    (pass env v s).calls = s.calls ++ passCalls env v s := by
  simp [pass, frame_calls, glfwWindowShouldClose, emit, passCalls, frameCalls]

theorem pass_window (env : Env) (v : Locals) (s : State) :
    (pass env v s).window = s.window := by
  simp [pass, frame_window, glfwWindowShouldClose, emit]

theorem pass_resizeCallback (env : Env) (v : Locals) (s : State) :
    (pass env v s).resizeCallback = s.resizeCallback := by
  simp [pass, frame_resizeCallback, glfwWindowShouldClose, emit]

theorem pass_polls (env : Env) (v : Locals) (s : State) :
    (pass env v s).polls = s.polls + 1 := by
  simp [pass, frame_polls, glfwWindowShouldClose, emit]

theorem pass_viewport (env : Env) (v : Locals) (s : State) (size : Int × Int)
    (hcb : s.resizeCallback = some Callback.framebuffer_size_callback)
    (h : s.viewport = some { x := 0, y := 0, width := size.1, height := size.2 }) :
    (pass env v s).viewport =
      some { x := 0, y := 0,
             width := (latestFramebuffer size (env.pollEvents s.polls)).1,
             height := (latestFramebuffer size (env.pollEvents s.polls)).2 } := by
  have := frame_viewport env v (glfwWindowShouldClose s.window s).2 size
    (by simpa [glfwWindowShouldClose, emit] using hcb)
    (by simpa [glfwWindowShouldClose, emit] using h)
  simpa [pass, glfwWindowShouldClose, emit] using this

theorem iterations_zero (env : Env) (v : Locals) (s : State) :
    iterations env v 0 s = s := rfl

theorem iterations_succ (env : Env) (v : Locals) (n : Nat) (s : State) :
    iterations env v (n + 1) s = pass env v (iterations env v n s) := by
  simp [iterations, Function.iterate_succ_apply']

theorem iterations_succ_inner (env : Env) (v : Locals) (n : Nat) (s : State) :
    iterations env v (n + 1) s = iterations env v n (pass env v s) := by
  simp [iterations, Function.iterate_succ_apply]

theorem iterations_window (env : Env) (v : Locals) (n : Nat) (s : State) :
    (iterations env v n s).window = s.window := by
  induction n with
  | zero => rfl
  | succ n ih => rw [iterations_succ, pass_window, ih]

theorem iterations_resizeCallback (env : Env) (v : Locals) (n : Nat) (s : State) :
    (iterations env v n s).resizeCallback = s.resizeCallback := by
  induction n with
  | zero => rfl
  | succ n ih => rw [iterations_succ, pass_resizeCallback, ih]

theorem iterations_polls (env : Env) (v : Locals) (n : Nat) (s : State) :
    (iterations env v n s).polls = s.polls + n := by
  induction n with
  | zero => rfl
  | succ n ih => rw [iterations_succ, pass_polls, ih]; omega

theorem iterations_calls (env : Env) (v : Locals) (n : Nat) (s : State) :
    (iterations env v n s).calls = s.calls ++ loopCalls env v n s := by
  induction n with
  | zero => simp [iterations_zero, loopCalls]
  | succ n ih =>
    rw [iterations_succ, pass_calls, ih]
    simp [loopCalls, List.range_succ, List.flatMap_append]

theorem loop_unfold (env : Env) (v : Locals) (fuel : Nat) (s : State) :
    loop env v fuel s =
      if s.shouldClose = true then some (glfwWindowShouldClose s.window s).2
      else match fuel with
        | 0 => none
        | fuel + 1 => loop env v fuel (pass env v s) := by
  cases fuel <;> (rw [loop]; simp [pass, glfwWindowShouldClose])

/-- A loop that is left has run some number `n` of passes: the close flag read
false at the top of each of them and true at the top of the next one. -/
theorem loop_some (env : Env) (v : Locals) (fuel : Nat) (s t : State)
    (h : loop env v fuel s = some t) :
    ∃ n, n ≤ fuel ∧ (∀ k, k < n → (iterations env v k s).shouldClose = false) ∧
      (iterations env v n s).shouldClose = true ∧
      t = (glfwWindowShouldClose (iterations env v n s).window (iterations env v n s)).2 := by
  induction fuel generalizing s with
  | zero =>
    rw [loop_unfold] at h
    by_cases hc : s.shouldClose = true
    · refine ⟨0, le_refl _, fun k hk => absurd hk (Nat.not_lt_zero k), ?_, ?_⟩
      · simpa [iterations_zero] using hc
      · simpa [hc, iterations_zero] using h.symm
    · simp [hc] at h
  | succ fuel ih =>
    rw [loop_unfold] at h
    by_cases hc : s.shouldClose = true
    · refine ⟨0, Nat.zero_le _, fun k hk => absurd hk (Nat.not_lt_zero k), ?_, ?_⟩
      · simpa [iterations_zero] using hc
      · simpa [hc, iterations_zero] using h.symm
    · simp only [hc] at h
      obtain ⟨n, hn, hfalse, htrue, ht⟩ := ih (pass env v s) (by simpa using h)
      refine ⟨n + 1, Nat.succ_le_succ hn, ?_, ?_, ?_⟩
      · intro k hk
        cases k with
        | zero => simpa [iterations_zero] using hc
        | succ k =>
          rw [iterations_succ_inner]
          exact hfalse k (Nat.lt_of_succ_lt_succ hk)
      · rw [iterations_succ_inner]; exact htrue
      · rw [iterations_succ_inner]; exact ht

/-- Conversely, enough fuel lets the loop reach the first pass at whose top the
close flag reads true. -/
theorem loop_of_iterations (env : Env) (v : Locals) (n : Nat) (s : State)
    (hfalse : ∀ k, k < n → (iterations env v k s).shouldClose = false)
    (htrue : (iterations env v n s).shouldClose = true) (fuel : Nat) (hfuel : n ≤ fuel) :
    loop env v fuel s =
      some (glfwWindowShouldClose (iterations env v n s).window (iterations env v n s)).2 := by
  induction n generalizing s fuel with
  | zero =>
    rw [loop_unfold]
    simp [iterations_zero] at htrue
    simp [htrue, iterations_zero]
  | succ n ih =>
    have h0 : s.shouldClose = false := by simpa [iterations_zero] using hfalse 0 (Nat.succ_pos n)
    cases fuel with
    | zero => omega
    | succ fuel =>
      rw [loop_unfold]
      simp only [h0]
      rw [iterations_succ_inner]
      have := ih (pass env v s)
        (fun k hk => by
          have := hfalse (k + 1) (Nat.succ_lt_succ hk)
          rwa [iterations_succ_inner] at this)
        (by rwa [iterations_succ_inner] at htrue) fuel (by omega)
      simpa using this

/-! ## What the loop emits -/

theorem mem_resizeCalls (cb : Option Callback) (evs : List Event) (c : Call)
    (h : c ∈ resizeCalls cb evs) : ∃ width height, c = Call.glViewport 0 0 width height := by
  cases cb with
  | none => simp [resizeCalls] at h
  | some f =>
    cases f
    simp only [resizeCalls, List.mem_filterMap] at h
    obtain ⟨e, _, he⟩ := h
    cases e with
    | key a => simp at he
    | framebufferSize width height => exact ⟨width, height, by simpa using he.symm⟩
    | shouldClose b => simp at he

theorem mem_passCalls (env : Env) (v : Locals) (s : State) (c : Call)
    (h : c ∈ passCalls env v s) :
    c = Call.glfwWindowShouldClose s.window ∨
    c = Call.glfwGetKey s.window GLconst.GLFW_KEY_ESCAPE ∨
    c = Call.glfwSetWindowShouldClose s.window true ∨
    c = Call.glClearColor 0.2 0.3 0.3 1.0 ∨
    c = Call.glClear GLconst.GL_COLOR_BUFFER_BIT ∨
    c = Call.glUseProgram v.shaderProgram ∨
    c = Call.glBindVertexArray v.VAO ∨
    c = Call.glDrawArrays GLconst.GL_TRIANGLES 0 3 ∨
    c = Call.glBindVertexArray 0 ∨
    c = Call.glfwSwapBuffers s.window ∨
    c = Call.glfwPollEvents ∨
    ∃ width height, c = Call.glViewport 0 0 width height := by
  have hr := mem_resizeCalls s.resizeCallback (env.pollEvents s.polls) c
  by_cases hk : s.escapeKey = KeyAction.GLFW_PRESS
  · simp only [passCalls, frameCalls, hk, if_true, List.mem_cons, List.mem_append,
      List.mem_singleton, List.mem_nil_iff, or_false] at h
    tauto
  · simp only [passCalls, frameCalls, hk, if_false, List.mem_cons, List.mem_append,
      List.mem_singleton, List.mem_nil_iff, or_false] at h
    tauto

/-- Calls of a pass create nothing, release nothing, and name only the vertex
array, the null vertex array and the program. -/
theorem passCalls_inert (env : Env) (v : Locals) (s : State) (c : Call)
    (h : c ∈ passCalls env v s) :
    c.created = none ∧ c.released = none ∧ c ≠ Call.glfwTerminate ∧
    ∀ x ∈ c.uses, x = ⟨HandleKind.vertexArray, v.VAO⟩ ∨ x = ⟨HandleKind.vertexArray, 0⟩ ∨
      x = ⟨HandleKind.shaderOrProgram, v.shaderProgram⟩ := by
  rcases mem_passCalls env v s c h with
    h | h | h | h | h | h | h | h | h | h | h | ⟨width, height, h⟩
  all_goals subst h
  all_goals simp [Call.created, Call.released, Call.uses]

theorem countP_resizeCalls (cb : Option Callback) (evs : List Event) :
    (resizeCalls cb evs).countP Call.isDraw = 0 := by
  rw [List.countP_eq_zero]
  intro c hc
  obtain ⟨width, height, rfl⟩ := mem_resizeCalls cb evs c hc
  simp [Call.isDraw]

theorem filter_resizeCalls (cb : Option Callback) (evs : List Event) :
    (resizeCalls cb evs).filter Call.isDraw = [] := by
  rw [List.filter_eq_nil_iff]
  intro c hc
  obtain ⟨width, height, rfl⟩ := mem_resizeCalls cb evs c hc
  simp [Call.isDraw]

theorem filter_passCalls (env : Env) (v : Locals) (s : State) :
    (passCalls env v s).filter Call.isDraw = [Call.glDrawArrays GLconst.GL_TRIANGLES 0 3] := by
  by_cases hk : s.escapeKey = KeyAction.GLFW_PRESS <;>
    simp [passCalls, frameCalls, hk, List.filter_cons, List.filter_append, Call.isDraw,
      filter_resizeCalls]

theorem countP_passCalls (env : Env) (v : Locals) (s : State) :
    (passCalls env v s).countP Call.isDraw = 1 := by
  rw [List.countP_eq_length_filter, filter_passCalls]
  rfl

theorem countP_loopCalls (env : Env) (v : Locals) (n : Nat) (s : State) :
    (loopCalls env v n s).countP Call.isDraw = n := by
  induction n with
  | zero => simp [loopCalls]
  | succ n ih =>
    have hsplit : loopCalls env v (n + 1) s =
        loopCalls env v n s ++ passCalls env v (iterations env v n s) := by
      simp [loopCalls, List.range_succ, List.flatMap_append]
    rw [hsplit, List.countP_append, ih, countP_passCalls]

theorem mem_loopCalls (env : Env) (v : Locals) (n : Nat) (s : State) (c : Call)
    (h : c ∈ loopCalls env v n s) : ∃ k, k < n ∧ c ∈ passCalls env v (iterations env v k s) := by
  simp only [loopCalls, List.mem_flatMap, List.mem_range] at h
  exact h

theorem loopCalls_inert (env : Env) (v : Locals) (n : Nat) (s : State) (c : Call)
    (h : c ∈ loopCalls env v n s) :
    c.created = none ∧ c.released = none ∧ c ≠ Call.glfwTerminate ∧
    ∀ x ∈ c.uses, x = ⟨HandleKind.vertexArray, v.VAO⟩ ∨ x = ⟨HandleKind.vertexArray, 0⟩ ∨
      x = ⟨HandleKind.shaderOrProgram, v.shaderProgram⟩ := by
  obtain ⟨k, _, hk⟩ := mem_loopCalls env v n s c h
  exact passCalls_inert env v _ c hk

/-- Trace of a loop that is left: some number of passes, then the last test. -/
theorem loop_calls (env : Env) (v : Locals) (fuel : Nat) (s t : State)
    (h : loop env v fuel s = some t) :
    ∃ n, n ≤ fuel ∧
      t.calls = s.calls ++ loopCalls env v n s ++ [Call.glfwWindowShouldClose s.window] := by
  obtain ⟨n, hn, _, _, ht⟩ := loop_some env v fuel s t h
  refine ⟨n, hn, ?_⟩
  rw [ht]
  simp [glfwWindowShouldClose, emit, iterations_calls, iterations_window]

/-! ## Pipeline setup -/

theorem sizeofVertices_eq : sizeofVertices = 36 := rfl

theorem setup_eq (env : Env) (s : State) :
    setup env s =
      (setupLocals env, { s with calls := s.calls ++ (buildCalls env ++ finishCalls env) }) := by
  have h12 : 3 * sizeofFloat = 12 := rfl
  by_cases hv : env.vertexCompileStatus = 0 <;>
  by_cases hf : env.fragmentCompileStatus = 0 <;>
  by_cases hl : env.linkStatus = 0 <;>
    simp only [setup, setupLocals, buildCalls, finishCalls, glGenVertexArrays,
      glBindVertexArray, glGenBuffers, glBindBuffer, glBufferData, glCreateShader,
      glShaderSource, glCompileShader, glGetShaderiv, glGetShaderInfoLog, glCreateProgram,
      glAttachShader, glLinkProgram, glGetProgramiv, glGetProgramInfoLog, glDeleteShader,
      glUseProgram, glVertexAttribPointer, glEnableVertexAttribArray, cout, emit, hv, hf, hl,
      sizeofVertices_eq, h12, if_true, if_false, List.append_assoc, List.cons_append,
      List.nil_append, List.append_nil]

theorem truncateLog_length (n : Nat) (log : String) : (truncateLog n log).length ≤ n - 1 := by
  show (log.data.take (n - 1)).length ≤ n - 1
  exact List.length_take_le (n - 1) log.data

theorem teardown_eq (v : Locals) (s : State) :
    teardown v s = (0, { s with calls := s.calls ++ teardownCalls v }) := by
  simp [teardown, teardownCalls, glDeleteVertexArrays, glDeleteBuffers, glDeleteProgram,
    glfwTerminate, emit]

@[simp] theorem start_calls : State.start.calls = [] := rfl

@[simp] theorem start_window : State.start.window = none := rfl

@[simp] theorem start_shouldClose : State.start.shouldClose = false := rfl

@[simp] theorem start_viewport : State.start.viewport = none := rfl

@[simp] theorem start_resizeCallback : State.start.resizeCallback = none := rfl

@[simp] theorem start_polls : State.start.polls = 0 := rfl

/-- The calls `main` makes before pipeline setup. -/
theorem bootstrap_cases (env : Env) :
    (bootstrap env State.start =
      { State.start with calls :=
          [Call.glfwInitHint GLconst.GLFW_PLATFORM GLconst.GLFW_PLATFORM_WAYLAND,
           Call.glfwInit,
           Call.glfwGetError,
           Call.cout ("Error: Failed to init GLFW\n - (" ++ toString env.errorCode
             ++ ") " ++ env.errorDescription ++ "\n"),
           Call.cout "Error: Initialization failed\n"] }) ∨
    (∃ vp cb, bootstrap env State.start =
      { State.start with
        calls :=
          [Call.glfwInitHint GLconst.GLFW_PLATFORM GLconst.GLFW_PLATFORM_WAYLAND,
           Call.glfwInit,
           Call.glfwWindowHint GLconst.GLFW_CONTEXT_VERSION_MAJOR (HintValue.int 3),
           Call.glfwWindowHint GLconst.GLFW_CONTEXT_VERSION_MINOR (HintValue.int 3),
           Call.glfwWindowHint GLconst.GLFW_OPENGL_PROFILE
             (HintValue.const GLconst.GLFW_OPENGL_CORE_PROFILE),
           Call.glfwCreateWindow 800 600 "test" env.createdWindow,
           Call.glfwMakeContextCurrent env.createdWindow,
           Call.glViewport 0 0 800 600,
           Call.glfwSetFramebufferSizeCallback env.createdWindow
             Callback.framebuffer_size_callback],
        window := env.createdWindow, viewport := vp, resizeCallback := cb }) := by
  cases h : env.initOk with
  | false =>
    left
    rw [bootstrap, init_failure_eq env State.start h]
    simp [cout, emit, State.start]
  | true =>
    right
    cases hw : env.createdWindow with
    | none =>
      refine ⟨some { x := 0, y := 0, width := 800, height := 600 }, none, ?_⟩
      simp [bootstrap, init, glfwInitHint, glfwInit, glfwWindowHint, glfwCreateWindow,
        store, load, glfwMakeContextCurrent, glViewport, glfwSetFramebufferSizeCallback,
        emit, h, hw, SCREEN_WIDTH, SCREEN_HEIGHT, State.start]
    | some w =>
      refine ⟨some { x := 0, y := 0, width := 800, height := 600 },
        some Callback.framebuffer_size_callback, ?_⟩
      rw [bootstrap, init_success_eq env State.start w h hw]
      simp [State.start]

theorem bootstrap_shouldClose (env : Env) : (bootstrap env State.start).shouldClose = false := by
  rcases bootstrap_cases env with h | ⟨vp, cb, h⟩ <;> rw [h] <;> rfl

theorem bootstrap_polls (env : Env) : (bootstrap env State.start).polls = 0 := by
  rcases bootstrap_cases env with h | ⟨vp, cb, h⟩ <;> rw [h] <;> rfl

theorem bootstrap_inert (env : Env) (c : Call) (h : c ∈ (bootstrap env State.start).calls) :
    c.created = none ∧ c.released = none ∧ c ≠ Call.glfwTerminate ∧ c.uses = [] := by
  rcases bootstrap_cases env with hb | ⟨vp, cb, hb⟩
  · rw [hb] at h
    simp only [List.mem_cons, List.mem_singleton, List.mem_nil_iff, or_false] at h
    rcases h with rfl | rfl | rfl | rfl | rfl <;>
      simp [Call.created, Call.released, Call.uses]
  · rw [hb] at h
    simp only [List.mem_cons, List.mem_singleton, List.mem_nil_iff, or_false] at h
    rcases h with rfl | rfl | rfl | rfl | rfl | rfl | rfl | rfl | rfl <;>
      simp [Call.created, Call.released, Call.uses]

/-! ## `main` -/

/-- `main` is bootstrap, setup, the loop and teardown, run one after the other. -/
theorem main_eq (env : Env) (fuel : Nat) :
    main env fuel =
      Option.map (teardown (setup env (bootstrap env State.start)).1)
        (loop env (setup env (bootstrap env State.start)).1 fuel
          (setup env (bootstrap env State.start)).2) := by
  unfold main
  cases h : loop env (setup env (bootstrap env State.start)).1 fuel
      (setup env (bootstrap env State.start)).2 <;> simp [h]

/-- The only exit code `main` returns is 0. -/
theorem main_exit_code (env : Env) (fuel : Nat) :
    Option.map Prod.fst (main env fuel) = none ∨
      Option.map Prod.fst (main env fuel) = some 0 := by
  rw [main_eq]
  cases loop env (setup env (bootstrap env State.start)).1 fuel
      (setup env (bootstrap env State.start)).2 with
  | none => left; rfl
  | some t => right; rfl

theorem setup_shouldClose (env : Env) (s : State) :
    (setup env s).2.shouldClose = s.shouldClose := by
  rw [setup_eq]

theorem setup_fst (env : Env) (s : State) : (setup env s).1 = setupLocals env := by
  rw [setup_eq]

theorem setup_calls (env : Env) (s : State) :
    (setup env s).2.calls = s.calls ++ (buildCalls env ++ finishCalls env) := by
  rw [setup_eq]

/-- After setup `main` passes the first loop test and runs the first frame. -/
theorem main_first_frame (env : Env) (fuel : Nat) :
    main env (fuel + 1) =
      Option.map (teardown (setupLocals env))
        (loop env (setupLocals env) fuel
          (pass env (setupLocals env) (setup env (bootstrap env State.start)).2)) := by
  rw [main_eq, setup_fst, loop_unfold]
  simp [setup_shouldClose, bootstrap_shouldClose]

theorem iterations_viewport (env : Env) (v : Locals) (n : Nat) (s : State) (size : Int × Int)
    (hcb : s.resizeCallback = some Callback.framebuffer_size_callback)
    (h : s.viewport = some { x := 0, y := 0, width := size.1, height := size.2 }) :
    (iterations env v n s).viewport =
      some { x := 0, y := 0,
             width := (latestFramebuffer size
               ((List.range n).flatMap fun k => env.pollEvents (s.polls + k))).1,
             height := (latestFramebuffer size
               ((List.range n).flatMap fun k => env.pollEvents (s.polls + k))).2 } := by
  induction n with
  | zero => simpa [iterations_zero, latestFramebuffer] using h
  | succ n ih =>
    rw [iterations_succ]
    have := pass_viewport env v (iterations env v n s) _
      (by rw [iterations_resizeCallback, hcb]) ih
    rw [this, iterations_polls]
    simp [latestFramebuffer, List.range_succ, List.flatMap_append, List.foldl_append]

/-- Trace of a run of `main` that returns. -/
theorem main_calls (env : Env) (fuel : Nat) (code : Int) (t : State)
    (h : main env fuel = some (code, t)) :
    code = 0 ∧ ∃ n, n ≤ fuel ∧
      t.viewport =
        (iterations env (setupLocals env) n (setup env (bootstrap env State.start)).2).viewport ∧
      t.calls = (bootstrap env State.start).calls ++ buildCalls env ++ finishCalls env ++
        (loopCalls env (setupLocals env) n (setup env (bootstrap env State.start)).2 ++
          [Call.glfwWindowShouldClose (bootstrap env State.start).window]) ++
        teardownCalls (setupLocals env) := by
  rw [main_eq, setup_fst] at h
  cases hl : loop env (setupLocals env) fuel (setup env (bootstrap env State.start)).2 with
  | none => simp [hl] at h
  | some u =>
    rw [hl, Option.map_some', teardown_eq] at h
    have h1 := (Prod.mk.inj (Option.some.inj h)).1
    have h2 := (Prod.mk.inj (Option.some.inj h)).2
    obtain ⟨n, hn, _, _, hu⟩ := loop_some env (setupLocals env) fuel _ u hl
    refine ⟨h1.symm, n, hn, ?_, ?_⟩
    · rw [← h2, hu]
      simp [glfwWindowShouldClose, emit]
    · rw [← h2, hu]
      simp [glfwWindowShouldClose, emit, iterations_calls, setup_calls, iterations_window,
        setup_eq]

/-! ## Handles -/

theorem usesReleased_of_not_released (c d : Call) (h : c.released = none) :
    usesReleased c d = false := by
  simp [usesReleased, h]

theorem usesReleased_eq_false (c d : Call) (h : ∀ x, c.released = some x → x ∉ d.uses) :
    usesReleased c d = false := by
  unfold usesReleased
  cases hc : c.released with
  | none => rfl
  | some x => simpa using h x hc

theorem noUse_of_not_released (l : List Call) (h : ∀ c ∈ l, c.released = none) :
    noUseAfterRelease l :=
  List.pairwise_of_forall_mem_list fun a ha b _ => usesReleased_of_not_released a b (h a ha)

theorem buildCalls_released (env : Env) (c : Call) (h : c ∈ buildCalls env) :
    c.released = none := by
  have hnil : (buildCalls env).filterMap Call.released = [] := by
    by_cases hv : env.vertexCompileStatus = 0 <;>
    by_cases hf : env.fragmentCompileStatus = 0 <;>
    by_cases hl : env.linkStatus = 0 <;>
      simp [buildCalls, hv, hf, hl, Call.released, List.filterMap_cons]
  exact List.filterMap_eq_nil_iff.1 hnil c h

theorem buildCalls_created (env : Env) :
    (buildCalls env).filterMap Call.created =
      [⟨HandleKind.vertexArray, env.vertexArray⟩, ⟨HandleKind.buffer, env.buffer⟩,
       ⟨HandleKind.shaderOrProgram, env.vertexShader⟩,
       ⟨HandleKind.shaderOrProgram, env.fragmentShader⟩,
       ⟨HandleKind.shaderOrProgram, env.program⟩] := by
  by_cases hv : env.vertexCompileStatus = 0 <;>
  by_cases hf : env.fragmentCompileStatus = 0 <;>
  by_cases hl : env.linkStatus = 0 <;>
    simp [buildCalls, hv, hf, hl, Call.created, List.filterMap_cons]

theorem buildCalls_not_terminate (env : Env) : Call.glfwTerminate ∉ buildCalls env := by
  by_cases hv : env.vertexCompileStatus = 0 <;>
  by_cases hf : env.fragmentCompileStatus = 0 <;>
  by_cases hl : env.linkStatus = 0 <;>
    simp [buildCalls, hv, hf, hl]

theorem finishCalls_shaderFree (env : Env) (a d : Call) (ha : a ∈ finishCalls env)
    (hd : shaderFree env d) : usesReleased a d = false := by
  apply usesReleased_eq_false
  intro x hx hmem
  simp only [finishCalls, List.mem_cons, List.mem_singleton, List.mem_nil_iff, or_false] at ha
  rcases ha with rfl | rfl | rfl | rfl | rfl
  · simp only [Call.released, Option.some.injEq] at hx
    exact (hd x hmem).1 hx.symm
  · simp only [Call.released, Option.some.injEq] at hx
    exact (hd x hmem).2 hx.symm
  · simp [Call.released] at hx
  · simp [Call.released] at hx
  · simp [Call.released] at hx

theorem noUse_finishCalls (env : Env) (h1 : env.vertexShader ≠ env.fragmentShader)
    (h2 : env.program ≠ env.vertexShader) (h3 : env.program ≠ env.fragmentShader) :
    noUseAfterRelease (finishCalls env) := by
  simp [noUseAfterRelease, finishCalls, usesReleased, Call.released, Call.uses, h1, h2, h3,
    Ne.symm h1, Ne.symm h2, Ne.symm h3]

theorem noUse_teardownCalls (v : Locals) : noUseAfterRelease (teardownCalls v) := by
  simp [noUseAfterRelease, teardownCalls, usesReleased, Call.released, Call.uses]

theorem teardownCalls_shaderFree (env : Env) (d : Call)
    (h2 : env.program ≠ env.vertexShader) (h3 : env.program ≠ env.fragmentShader)
    (hd : d ∈ teardownCalls (setupLocals env)) : shaderFree env d := by
  simp only [teardownCalls, setupLocals, List.mem_cons, List.mem_singleton, List.mem_nil_iff,
    or_false] at hd
  rcases hd with rfl | rfl | rfl | rfl <;> simp [shaderFree, Call.uses, h2, h3]

theorem loopCalls_shaderFree (env : Env) (n : Nat) (s : State) (d : Call)
    (h2 : env.program ≠ env.vertexShader) (h3 : env.program ≠ env.fragmentShader)
    (hd : d ∈ loopCalls env (setupLocals env) n s) : shaderFree env d := by
  intro x hx
  rcases (loopCalls_inert env (setupLocals env) n s d hd).2.2.2 x hx with rfl | rfl | rfl <;>
    simp [setupLocals, h2, h3]

/-! ## Bootstrap: the claims -/

/-- C5: when `glfwInit` fails, `init` issues exactly four actions, in this order:
the platform hint, `glfwInit`, `glfwGetError`, and one line of output holding
the error code and the description.  It returns -1, a non-zero status.  It
makes no window hint, creates no window, makes no context current, sets no
viewport and registers no callback, and leaves the caller's window variable as
it was, which is `nullptr` when the caller is `main`. -/
theorem init_reports_library_failure (env : Env) (s : State) (h : env.initOk = false) :
    (init env (some Loc.mainWindow) s).1 = -1 ∧
    (init env (some Loc.mainWindow) s).1 ≠ 0 ∧
    (init env (some Loc.mainWindow) s).2.calls = s.calls ++
      [Call.glfwInitHint GLconst.GLFW_PLATFORM GLconst.GLFW_PLATFORM_WAYLAND,
       Call.glfwInit,
       Call.glfwGetError,
       Call.cout ("Error: Failed to init GLFW\n - (" ++ toString env.errorCode
         ++ ") " ++ env.errorDescription ++ "\n")] ∧
    (init env (some Loc.mainWindow) s).2.window = s.window ∧
    (init env (some Loc.mainWindow) s).2.viewport = s.viewport ∧
    (init env (some Loc.mainWindow) s).2.resizeCallback = s.resizeCallback ∧
    (init env (some Loc.mainWindow) State.start).2.window = none := by
  rw [init_failure_eq env s h, init_failure_eq env State.start h]
  exact ⟨rfl, by simp, rfl, rfl, rfl, rfl, rfl⟩

/-- C5 at the backend whose initialisation fails with code 65550. -/
theorem init_reports_library_failure_witness :
    envInitFails.initOk = false ∧
    (init envInitFails (some Loc.mainWindow) State.start).1 = -1 ∧
    (init envInitFails (some Loc.mainWindow) State.start).2.calls =
      [Call.glfwInitHint GLconst.GLFW_PLATFORM GLconst.GLFW_PLATFORM_WAYLAND,
       Call.glfwInit,
       Call.glfwGetError,
       Call.cout
         "Error: Failed to init GLFW\n - (65550) Wayland: Failed to connect to display\n"] :=
  ⟨rfl, (init_reports_library_failure envInitFails State.start rfl).1,
    (init_reports_library_failure envInitFails State.start rfl).2.2.1⟩

/-- C9: when `glfwInit` succeeds and `glfwCreateWindow` returns the window `w`,
`init` returns 0 after exactly these actions, in order: the platform hint,
`glfwInit`, the hints for context version 3.3 and the core profile, one
`glfwCreateWindow(800, 600, "test")`, `glfwMakeContextCurrent(w)`,
`glViewport(0, 0, 800, 600)`, and the registration of
`framebuffer_size_callback` on `w`.  The viewport is the configured
`SCREEN_WIDTH` x `SCREEN_HEIGHT` at origin (0,0), and the caller's window
variable holds `w`. -/
theorem init_success (env : Env) (s : State) (w : Nat) (h : env.initOk = true)
    (hw : env.createdWindow = some w) :
    (init env (some Loc.mainWindow) s).1 = 0 ∧
    (init env (some Loc.mainWindow) s).2.calls = s.calls ++
      [Call.glfwInitHint GLconst.GLFW_PLATFORM GLconst.GLFW_PLATFORM_WAYLAND,
       Call.glfwInit,
       Call.glfwWindowHint GLconst.GLFW_CONTEXT_VERSION_MAJOR (HintValue.int 3),
       Call.glfwWindowHint GLconst.GLFW_CONTEXT_VERSION_MINOR (HintValue.int 3),
       Call.glfwWindowHint GLconst.GLFW_OPENGL_PROFILE
         (HintValue.const GLconst.GLFW_OPENGL_CORE_PROFILE),
       Call.glfwCreateWindow 800 600 "test" (some w),
       Call.glfwMakeContextCurrent (some w),
       Call.glViewport 0 0 800 600,
       Call.glfwSetFramebufferSizeCallback (some w) Callback.framebuffer_size_callback] ∧
    (init env (some Loc.mainWindow) s).2.viewport =
      some { x := 0, y := 0, width := (SCREEN_WIDTH : Int), height := (SCREEN_HEIGHT : Int) } ∧
    SCREEN_WIDTH = 800 ∧ SCREEN_HEIGHT = 600 ∧
    (init env (some Loc.mainWindow) s).2.resizeCallback =
      some Callback.framebuffer_size_callback ∧
    (init env (some Loc.mainWindow) s).2.window = some w := by
  rw [init_success_eq env s w h hw]
  refine ⟨rfl, rfl, ?_, rfl, rfl, rfl, rfl⟩
  simp [SCREEN_WIDTH, SCREEN_HEIGHT]

/-- C9 at the backend on which everything succeeds (window handle 7). -/
theorem init_success_witness :
    envPlay.initOk = true ∧ envPlay.createdWindow = some 7 ∧
    (init envPlay (some Loc.mainWindow) State.start).1 = 0 ∧
    (init envPlay (some Loc.mainWindow) State.start).2.window = some 7 :=
  ⟨rfl, rfl, (init_success envPlay State.start 7 rfl rfl).1,
    (init_success envPlay State.start 7 rfl rfl).2.2.2.2.2.2⟩

/-- C1, the code at a backend whose `glfwCreateWindow` returns `NULL`: the test
`window == NULL` looks at the address of the caller's variable, so `init` skips
the failure branch.  It prints nothing, does not call `glfwTerminate`, hands the
null handle to `glfwMakeContextCurrent` and `glfwSetFramebufferSizeCallback`,
and returns 0; `main` prints nothing either and goes on to pipeline setup and
the loop test, and with fuel for one frame the loop is still running.  The
failure branch (diagnostic, `glfwTerminate`, status -1) is taken only when the
address passed to `init` is itself null, which `main` never does. -/
theorem init_overlooks_null_window :
    envNoWindow.initOk = true ∧ envNoWindow.createdWindow = none ∧
    init envNoWindow (some Loc.mainWindow) State.start =
      (0, { State.start with
            calls :=
              [Call.glfwInitHint GLconst.GLFW_PLATFORM GLconst.GLFW_PLATFORM_WAYLAND,
               Call.glfwInit,
               Call.glfwWindowHint GLconst.GLFW_CONTEXT_VERSION_MAJOR (HintValue.int 3),
               Call.glfwWindowHint GLconst.GLFW_CONTEXT_VERSION_MINOR (HintValue.int 3),
               Call.glfwWindowHint GLconst.GLFW_OPENGL_PROFILE
                 (HintValue.const GLconst.GLFW_OPENGL_CORE_PROFILE),
               Call.glfwCreateWindow 800 600 "test" none,
               Call.glfwMakeContextCurrent none,
               Call.glViewport 0 0 800 600,
               Call.glfwSetFramebufferSizeCallback none Callback.framebuffer_size_callback],
            viewport := some { x := 0, y := 0, width := 800, height := 600 } }) ∧
    bootstrap envNoWindow State.start =
      (init envNoWindow (some Loc.mainWindow) State.start).2 ∧
    (pass envNoWindow (setup envNoWindow (bootstrap envNoWindow State.start)).1
        (setup envNoWindow (bootstrap envNoWindow State.start)).2).calls.countP Call.isDraw
      = 1 ∧
    main envNoWindow 1 = none ∧
    (init envNoWindow none State.start).1 = -1 ∧
    (init envNoWindow none State.start).2.calls =
      [Call.glfwInitHint GLconst.GLFW_PLATFORM GLconst.GLFW_PLATFORM_WAYLAND,
       Call.glfwInit,
       Call.glfwWindowHint GLconst.GLFW_CONTEXT_VERSION_MAJOR (HintValue.int 3),
       Call.glfwWindowHint GLconst.GLFW_CONTEXT_VERSION_MINOR (HintValue.int 3),
       Call.glfwWindowHint GLconst.GLFW_OPENGL_PROFILE
         (HintValue.const GLconst.GLFW_OPENGL_CORE_PROFILE),
       Call.glfwCreateWindow 800 600 "test" none,
       Call.cout "Error: Failed to create GLFW window\n",
       Call.glfwTerminate] := by
  exact ⟨rfl, rfl, rfl, rfl, rfl, rfl, rfl, rfl⟩

/-- C6, the code at a backend whose `glfwInit` fails: `init` returns -1, `main`
prints "Error: Initialization failed" and carries on.  It performs the whole
pipeline setup, enters the frame loop (with fuel for three frames the loop is
still running), and whenever it returns, the exit code is 0. -/
theorem main_ignores_init_failure :
    envInitFails.initOk = false ∧
    (init envInitFails (some Loc.mainWindow) State.start).1 = -1 ∧
    (bootstrap envInitFails State.start).calls =
      [Call.glfwInitHint GLconst.GLFW_PLATFORM GLconst.GLFW_PLATFORM_WAYLAND,
       Call.glfwInit,
       Call.glfwGetError,
       Call.cout
         "Error: Failed to init GLFW\n - (65550) Wayland: Failed to connect to display\n",
       Call.cout "Error: Initialization failed\n"] ∧
    (setup envInitFails (bootstrap envInitFails State.start)).2.calls =
      (bootstrap envInitFails State.start).calls ++
      [Call.glGenVertexArrays 1 1,
       Call.glBindVertexArray 1,
       Call.glGenBuffers 1 1,
       Call.glBindBuffer GLconst.GL_ARRAY_BUFFER 1,
       Call.glBufferData GLconst.GL_ARRAY_BUFFER 36 vertices GLconst.GL_STATIC_DRAW,
       Call.glCreateShader GLconst.GL_VERTEX_SHADER 1,
       Call.glShaderSource 1 1 vertexShaderSource,
       Call.glCompileShader 1,
       Call.glGetShaderiv 1 GLconst.GL_COMPILE_STATUS,
       Call.glCreateShader GLconst.GL_FRAGMENT_SHADER 2,
       Call.glShaderSource 2 1 fragmentShaderSource,
       Call.glCompileShader 2,
       Call.glGetShaderiv 2 GLconst.GL_COMPILE_STATUS,
       Call.glCreateProgram 3,
       Call.glAttachShader 3 1,
       Call.glAttachShader 3 2,
       Call.glLinkProgram 3,
       Call.glGetProgramiv 3 GLconst.GL_LINK_STATUS,
       Call.glDeleteShader 1,
       Call.glDeleteShader 2,
       Call.glUseProgram 3,
       Call.glVertexAttribPointer 0 3 GLconst.GL_FLOAT false 12 0,
       Call.glEnableVertexAttribArray 0] ∧
    (iterations envInitFails (setup envInitFails (bootstrap envInitFails State.start)).1 3
        (setup envInitFails (bootstrap envInitFails State.start)).2).calls.countP Call.isDraw
      = 3 ∧
    main envInitFails 3 = none ∧
    (∀ fuel, Option.map Prod.fst (main envInitFails fuel) = none ∨
      Option.map Prod.fst (main envInitFails fuel) = some 0) := by
  exact ⟨rfl, rfl, rfl, rfl, rfl, rfl, fun fuel => main_exit_code envInitFails fuel⟩

/-! ## The frame loop: the claims -/

/-- C2: in a loop iteration in which `processInput` reads the escape key as
pressed, the close flag is set; the iteration still makes all its calls (clear
colour, clear, bind, draw, unbind, swap, event poll); provided no event of that
poll clears the flag, the flag is still set after the iteration, so the loop
test at the top of the next iteration ends the loop, whatever the fuel, and the
only call made after the iteration is that test.  Conversely, whenever the loop
is left, it is left at a loop test that read the close flag as true. -/
theorem escape_ends_loop (env : Env) (v : Locals) (s : State)
    (hkey : s.escapeKey = KeyAction.GLFW_PRESS) :
    (processInput s.window s).shouldClose = true ∧
    (frame env v s).calls = s.calls ++
      [Call.glfwGetKey s.window GLconst.GLFW_KEY_ESCAPE,
       Call.glfwSetWindowShouldClose s.window true,
       Call.glClearColor 0.2 0.3 0.3 1.0,
       Call.glClear GLconst.GL_COLOR_BUFFER_BIT,
       Call.glUseProgram v.shaderProgram,
       Call.glBindVertexArray v.VAO,
       Call.glDrawArrays GLconst.GL_TRIANGLES 0 3,
       Call.glBindVertexArray 0,
       Call.glfwSwapBuffers s.window,
       Call.glfwPollEvents] ++
      resizeCalls s.resizeCallback (env.pollEvents s.polls) ∧
    ((∀ e ∈ env.pollEvents s.polls, e ≠ Event.shouldClose false) →
      (frame env v s).shouldClose = true ∧
      ∀ fuel, loop env v fuel (frame env v s) =
        some { frame env v s with
               calls := (frame env v s).calls ++ [Call.glfwWindowShouldClose s.window] }) ∧
    (∀ fuel t u, loop env v fuel t = some u →
      ∃ r, r.shouldClose = true ∧ u = (glfwWindowShouldClose r.window r).2) := by
  refine ⟨?_, ?_, ?_, ?_⟩
  · simp [processInput, glfwGetKey, glfwSetWindowShouldClose, emit, hkey]
  · rw [frame_calls]
    simp [frameCalls, hkey]
  · intro hev
    have hc := frame_shouldClose env v s hkey hev
    refine ⟨hc, fun fuel => ?_⟩
    rw [loop_unfold]
    simp [hc, glfwWindowShouldClose, emit, frame_window]
  · intro fuel t u h
    obtain ⟨n, _, _, htrue, hu⟩ := loop_some env v fuel t u h
    exact ⟨iterations env v n t, htrue, hu⟩

/-- C2 at a state in which escape is pressed, on the backend `envPlay`. -/
theorem escape_ends_loop_witness :
    pressedState.escapeKey = KeyAction.GLFW_PRESS ∧
    (processInput pressedState.window pressedState).shouldClose = true ∧
    (frame envPlay ⟨1, 1, 1, 2, 3⟩ pressedState).shouldClose = true ∧
    loop envPlay ⟨1, 1, 1, 2, 3⟩ 0 (frame envPlay ⟨1, 1, 1, 2, 3⟩ pressedState) =
      some { frame envPlay ⟨1, 1, 1, 2, 3⟩ pressedState with
             calls := (frame envPlay ⟨1, 1, 1, 2, 3⟩ pressedState).calls ++
               [Call.glfwWindowShouldClose (some 7)] } :=
  ⟨rfl,
   (escape_ends_loop envPlay ⟨1, 1, 1, 2, 3⟩ pressedState rfl).1,
   ((escape_ends_loop envPlay ⟨1, 1, 1, 2, 3⟩ pressedState rfl).2.2.1 (by decide)).1,
   ((escape_ends_loop envPlay ⟨1, 1, 1, 2, 3⟩ pressedState rfl).2.2.1 (by decide)).2 0⟩

/-- C3: for every `n`, the first `n` passes of the loop emit, pass after pass and
in this order: the loop test, the keyboard poll (followed by the close-flag write
when escape is pressed), `glClearColor(0.2, 0.3, 0.3, 1.0)`, the colour-buffer
clear, the program bind, the vertex-array bind, `glDrawArrays(GL_TRIANGLES, 0, 3)`,
the vertex-array unbind, the buffer swap and the event poll (followed by the
`glViewport` calls of the resize callback for the events polled).  Each pass has
exactly one draw call, `n` passes have exactly `n`, and no call of the loop
creates or releases a graphics object.  A loop that is left after `m` passes has
emitted the calls of `m` passes and one more loop test. -/
theorem frame_loop_trace (env : Env) (v : Locals) (n : Nat) (s : State) :
    (iterations env v n s).calls = s.calls ++ loopCalls env v n s ∧
    (∀ k, passCalls env v (iterations env v k s) =
      [Call.glfwWindowShouldClose s.window,
       Call.glfwGetKey s.window GLconst.GLFW_KEY_ESCAPE] ++
      (if (iterations env v k s).escapeKey = KeyAction.GLFW_PRESS then
         [Call.glfwSetWindowShouldClose s.window true] else []) ++
      [Call.glClearColor 0.2 0.3 0.3 1.0,
       Call.glClear GLconst.GL_COLOR_BUFFER_BIT,
       Call.glUseProgram v.shaderProgram,
       Call.glBindVertexArray v.VAO,
       Call.glDrawArrays GLconst.GL_TRIANGLES 0 3,
       Call.glBindVertexArray 0,
       Call.glfwSwapBuffers s.window,
       Call.glfwPollEvents] ++
      resizeCalls s.resizeCallback (env.pollEvents (s.polls + k))) ∧
    (∀ k, (passCalls env v (iterations env v k s)).filter Call.isDraw =
      [Call.glDrawArrays GLconst.GL_TRIANGLES 0 3]) ∧
    (loopCalls env v n s).countP Call.isDraw = n ∧
    (∀ c ∈ loopCalls env v n s, c.created = none ∧ c.released = none) ∧
    (∀ fuel t, loop env v fuel s = some t →
      ∃ m, m ≤ fuel ∧
        t.calls = s.calls ++ loopCalls env v m s ++ [Call.glfwWindowShouldClose s.window] ∧
        (loopCalls env v m s ++ [Call.glfwWindowShouldClose s.window]).countP Call.isDraw
          = m) := by
  refine ⟨iterations_calls env v n s, ?_, fun k => filter_passCalls env v _,
    countP_loopCalls env v n s, ?_, ?_⟩
  · intro k
    simp [passCalls, frameCalls, iterations_window, iterations_resizeCallback,
      iterations_polls]
  · intro c hc
    exact ⟨(loopCalls_inert env v n s c hc).1, (loopCalls_inert env v n s c hc).2.1⟩
  · intro fuel t h
    obtain ⟨m, hm, ht⟩ := loop_calls env v fuel s t h
    refine ⟨m, hm, ht, ?_⟩
    rw [List.countP_append, countP_loopCalls]
    simp [Call.isDraw]

/-! ## Pipeline setup and geometry: the claims -/

/-- C7: whatever the two compile statuses and the link status are, setup makes
exactly the calls below, in order.  A failed step (status 0) is followed by one
info-log query asking for 512 bytes and one line of output holding the text
read; a successful step by neither, so the number of lines printed is the
number of failed steps.  The text read has at most 511 characters and fits,
with its terminator, the 512-byte buffer.  Both shaders are attached, the
program is linked, and right after the link check both shader objects are
deleted, once each; then the program is made current.  `main` goes on to the
frame loop and runs its first frame. -/
theorem setup_logs_and_continues (env : Env) (s : State) :
    (setup env s).2.calls = s.calls ++
      ([Call.glGenVertexArrays 1 env.vertexArray,
        Call.glBindVertexArray env.vertexArray,
        Call.glGenBuffers 1 env.buffer,
        Call.glBindBuffer GLconst.GL_ARRAY_BUFFER env.buffer,
        Call.glBufferData GLconst.GL_ARRAY_BUFFER 36 vertices GLconst.GL_STATIC_DRAW,
        Call.glCreateShader GLconst.GL_VERTEX_SHADER env.vertexShader,
        Call.glShaderSource env.vertexShader 1 vertexShaderSource,
        Call.glCompileShader env.vertexShader,
        Call.glGetShaderiv env.vertexShader GLconst.GL_COMPILE_STATUS] ++
       (if env.vertexCompileStatus = 0 then
          [Call.glGetShaderInfoLog env.vertexShader 512,
           Call.cout ("Error: Vertex shader compilation failed\n" ++
             truncateLog 512 env.vertexInfoLog ++ "\n")]
        else []) ++
       [Call.glCreateShader GLconst.GL_FRAGMENT_SHADER env.fragmentShader,
        Call.glShaderSource env.fragmentShader 1 fragmentShaderSource,
        Call.glCompileShader env.fragmentShader,
        Call.glGetShaderiv env.fragmentShader GLconst.GL_COMPILE_STATUS] ++
       (if env.fragmentCompileStatus = 0 then
          [Call.glGetShaderInfoLog env.fragmentShader 512,
           Call.cout ("Error: Fragment shader compilation failed\n" ++
             truncateLog 512 env.fragmentInfoLog ++ "\n")]
        else []) ++
       [Call.glCreateProgram env.program,
        Call.glAttachShader env.program env.vertexShader,
        Call.glAttachShader env.program env.fragmentShader,
        Call.glLinkProgram env.program,
        Call.glGetProgramiv env.program GLconst.GL_LINK_STATUS] ++
       (if env.linkStatus = 0 then
          [Call.glGetProgramInfoLog env.program 512,
           Call.cout ("Error: Shader program link failed\n" ++
             truncateLog 512 env.programInfoLog ++ "\n")]
        else []) ++
       [Call.glDeleteShader env.vertexShader,
        Call.glDeleteShader env.fragmentShader,
        Call.glUseProgram env.program,
        Call.glVertexAttribPointer 0 3 GLconst.GL_FLOAT false 12 0,
        Call.glEnableVertexAttribArray 0]) ∧
    (buildCalls env ++ finishCalls env).countP Call.isOutput =
      (if env.vertexCompileStatus = 0 then 1 else 0) +
      (if env.fragmentCompileStatus = 0 then 1 else 0) +
      (if env.linkStatus = 0 then 1 else 0) ∧
    (buildCalls env ++ finishCalls env).filterMap Call.released =
      [⟨HandleKind.shaderOrProgram, env.vertexShader⟩,
       ⟨HandleKind.shaderOrProgram, env.fragmentShader⟩] ∧
    infoLogCapacity = 512 ∧
    (∀ log, (truncateLog 512 log).length ≤ 511 ∧
      (truncateLog 512 log).length + 1 ≤ infoLogCapacity) ∧
    (setup env s).1 =
      { VAO := env.vertexArray, VBO := env.buffer, vertexShader := env.vertexShader,
        fragmentShader := env.fragmentShader, shaderProgram := env.program } ∧
    (∀ fuel, main env (fuel + 1) =
      Option.map (teardown (setup env (bootstrap env State.start)).1)
        (loop env (setup env (bootstrap env State.start)).1 fuel
          (pass env (setup env (bootstrap env State.start)).1
            (setup env (bootstrap env State.start)).2))) := by
  refine ⟨?_, ?_, ?_, rfl, ?_, ?_, ?_⟩
  · rw [setup_calls]
    simp only [buildCalls, finishCalls]
  · by_cases hv : env.vertexCompileStatus = 0 <;>
    by_cases hf : env.fragmentCompileStatus = 0 <;>
    by_cases hl : env.linkStatus = 0 <;>
      simp [buildCalls, finishCalls, hv, hf, hl, Call.isOutput, List.countP_cons]
  · by_cases hv : env.vertexCompileStatus = 0 <;>
    by_cases hf : env.fragmentCompileStatus = 0 <;>
    by_cases hl : env.linkStatus = 0 <;>
      simp [buildCalls, finishCalls, hv, hf, hl, Call.released, List.filterMap_cons]
  · intro log
    have h := truncateLog_length 512 log
    simp only [infoLogCapacity]
    omega
  · rw [setup_fst]; rfl
  · intro fuel
    rw [main_first_frame, setup_fst]

/-- C10: `vertices` holds 9 floats, the three vertices (-0.5,-0.5,0),
(0.5,-0.5,0), (0,0.5,0); `sizeof(vertices)` is 36 bytes and the whole array is
uploaded; the attribute layout is index 0, 3 float components, stride 12 bytes,
offset 0; each frame draws vertices 0, 1, 2.  The bytes fetched for vertex
`i < 3` are `[12 i, 12 i + 12)`, which lies within `[0, 36)`, and the three
ranges together are exactly `[0, 36)`. -/
theorem geometry_matches_layout (env : Env) (s : State) (v : Locals) :
    vertices = [-0.5, -0.5, 0, 0.5, -0.5, 0, 0, 0.5, 0] ∧
    vertices.length = 9 ∧
    sizeofVertices = 36 ∧
    3 * sizeofFloat = 12 ∧
    Call.glBufferData GLconst.GL_ARRAY_BUFFER 36 vertices GLconst.GL_STATIC_DRAW
      ∈ (setup env s).2.calls ∧
    Call.glVertexAttribPointer 0 3 GLconst.GL_FLOAT false 12 0 ∈ (setup env s).2.calls ∧
    (frame env v s).calls.filter Call.isDraw =
      s.calls.filter Call.isDraw ++ [Call.glDrawArrays GLconst.GL_TRIANGLES 0 3] ∧
    (∀ i, i < 0 + 3 → fetchRange 3 12 0 i = (12 * i, 12 * i + 12) ∧
      (fetchRange 3 12 0 i).2 ≤ 36) ∧
    (∀ b, b < 36 ↔ ∃ i, i < 0 + 3 ∧ (fetchRange 3 12 0 i).1 ≤ b ∧ b < (fetchRange 3 12 0 i).2)
    := by
  refine ⟨?_, rfl, rfl, rfl, ?_, ?_, ?_, ?_, ?_⟩
  · norm_num [vertices]
  · rw [setup_calls]
    simp [buildCalls]
  · rw [setup_calls]
    simp [finishCalls]
  · rw [frame_calls, List.filter_append]
    have h := filter_passCalls env v s
    simp only [passCalls, List.filter_cons, Call.isDraw] at h
    simpa using h
  · intro i hi
    simp only [fetchRange, sizeofFloat, Prod.mk.injEq]
    omega
  · intro b
    simp only [fetchRange, sizeofFloat]
    constructor
    · intro hb
      refine ⟨b / 12, ?_, ?_, ?_⟩ <;> omega
    · rintro ⟨i, hi, _, h2⟩
      omega

/-- C4: on a run whose `glfwInit` succeeds and whose window is created, `init`
sets the viewport to (0, 0, `SCREEN_WIDTH`, `SCREEN_HEIGHT`); a call of
`framebuffer_size_callback(_, w, h)` does one thing, `glViewport(0, 0, w, h)`;
and after any number of passes of the frame loop, and at the end of a run that
returns, the viewport is (0, 0, w, h) for the size w x h of the latest
framebuffer-resize event polled so far, or the configured size if there was
none. -/
theorem viewport_tracks_framebuffer (env : Env) (w : Nat) (hinit : env.initOk = true)
    (hwin : env.createdWindow = some w) :
    (init env (some Loc.mainWindow) State.start).2.viewport =
      some { x := 0, y := 0, width := (SCREEN_WIDTH : Int), height := (SCREEN_HEIGHT : Int) } ∧
    (∀ win width height t,
      framebuffer_size_callback win width height t =
        { t with calls := t.calls ++ [Call.glViewport 0 0 width height],
                 viewport := some { x := 0, y := 0, width := width, height := height } }) ∧
    (∀ n,
      (iterations env (setup env (bootstrap env State.start)).1 n
          (setup env (bootstrap env State.start)).2).viewport =
        some { x := 0, y := 0,
               width := (latestFramebuffer ((SCREEN_WIDTH : Int), (SCREEN_HEIGHT : Int))
                 (polledEvents env n)).1,
               height := (latestFramebuffer ((SCREEN_WIDTH : Int), (SCREEN_HEIGHT : Int))
                 (polledEvents env n)).2 }) ∧
    (∀ fuel code t, main env fuel = some (code, t) →
      ∃ n, n ≤ fuel ∧
        t.viewport =
          some { x := 0, y := 0,
                 width := (latestFramebuffer ((SCREEN_WIDTH : Int), (SCREEN_HEIGHT : Int))
                   (polledEvents env n)).1,
                 height := (latestFramebuffer ((SCREEN_WIDTH : Int), (SCREEN_HEIGHT : Int))
                   (polledEvents env n)).2 }) := by
  have hboot : bootstrap env State.start = (init env (some Loc.mainWindow) State.start).2 := by
    rw [bootstrap, init_success_eq env State.start w hinit hwin]
    simp
  have hiter : ∀ n,
      (iterations env (setup env (bootstrap env State.start)).1 n
          (setup env (bootstrap env State.start)).2).viewport =
        some { x := 0, y := 0,
               width := (latestFramebuffer ((SCREEN_WIDTH : Int), (SCREEN_HEIGHT : Int))
                 (polledEvents env n)).1,
               height := (latestFramebuffer ((SCREEN_WIDTH : Int), (SCREEN_HEIGHT : Int))
                 (polledEvents env n)).2 } := by
    intro n
    have h := iterations_viewport env (setup env (bootstrap env State.start)).1 n
      (setup env (bootstrap env State.start)).2 ((SCREEN_WIDTH : Int), (SCREEN_HEIGHT : Int))
      (by rw [setup_eq, hboot, init_success_eq env State.start w hinit hwin])
      (by rw [setup_eq, hboot, init_success_eq env State.start w hinit hwin]
          simp [SCREEN_WIDTH, SCREEN_HEIGHT])
    rw [h]
    have hp : (setup env (bootstrap env State.start)).2.polls = 0 := by
      rw [setup_eq]; exact bootstrap_polls env
    simp [polledEvents, hp]
  refine ⟨?_, ?_, hiter, ?_⟩
  · rw [init_success_eq env State.start w hinit hwin]
    simp [SCREEN_WIDTH, SCREEN_HEIGHT]
  · intro win width height t
    simp [framebuffer_size_callback, glViewport, emit]
  · intro fuel code t h
    obtain ⟨_, n, hn, hv, _⟩ := main_calls env fuel code t h
    refine ⟨n, hn, ?_⟩
    rw [hv, ← setup_fst env (bootstrap env State.start), hiter n]

/-! ## Teardown: the claim -/

/-- C8: a run of `main` that returns has exit code 0 and ends with the calls
`glDeleteVertexArrays(1, &VAO)`, `glDeleteBuffers(1, &VBO)`,
`glDeleteProgram(shaderProgram)`, `glfwTerminate()`, in this order, on the names
obtained during setup, and `glfwTerminate` is called nowhere before.  Over the
whole run the handles created are the vertex array, the buffer, the two
shaders and the program, and the handles released are the two shaders, the
vertex array, the buffer and the program: each one once.  When the backend gave
the two shaders and the program three different names, no call names a handle
after the call that released it.  A run whose loop test first reads the close
flag as true after `m` passes returns, with exit code 0, for every fuel of at
least `m`. -/
theorem teardown_releases_handles (env : Env) (fuel : Nat) (code : Int) (t : State)
    (hrun : main env fuel = some (code, t)) :
    code = 0 ∧
    (∃ pre, t.calls = pre ++
        [Call.glDeleteVertexArrays 1 env.vertexArray,
         Call.glDeleteBuffers 1 env.buffer,
         Call.glDeleteProgram env.program,
         Call.glfwTerminate] ∧
      Call.glfwTerminate ∉ pre) ∧
    t.calls.filterMap Call.created =
      [⟨HandleKind.vertexArray, env.vertexArray⟩, ⟨HandleKind.buffer, env.buffer⟩,
       ⟨HandleKind.shaderOrProgram, env.vertexShader⟩,
       ⟨HandleKind.shaderOrProgram, env.fragmentShader⟩,
       ⟨HandleKind.shaderOrProgram, env.program⟩] ∧
    t.calls.filterMap Call.released =
      [⟨HandleKind.shaderOrProgram, env.vertexShader⟩,
       ⟨HandleKind.shaderOrProgram, env.fragmentShader⟩,
       ⟨HandleKind.vertexArray, env.vertexArray⟩, ⟨HandleKind.buffer, env.buffer⟩,
       ⟨HandleKind.shaderOrProgram, env.program⟩] ∧
    (env.vertexShader ≠ env.fragmentShader → env.program ≠ env.vertexShader →
      env.program ≠ env.fragmentShader → noUseAfterRelease t.calls) ∧
    (∀ m,
      (∀ k, k < m →
        (iterations env (setup env (bootstrap env State.start)).1 k
          (setup env (bootstrap env State.start)).2).shouldClose = false) →
      (iterations env (setup env (bootstrap env State.start)).1 m
        (setup env (bootstrap env State.start)).2).shouldClose = true →
      ∀ fuel2, m ≤ fuel2 → Option.map Prod.fst (main env fuel2) = some 0) := by
  obtain ⟨hcode, n, _, _, hcalls⟩ := main_calls env fuel code t hrun
  have hB := bootstrap_inert env
  have hL := loopCalls_inert env (setupLocals env) n (setup env (bootstrap env State.start)).2
  have hBc : (bootstrap env State.start).calls.filterMap Call.created = [] :=
    List.filterMap_eq_nil_iff.2 fun c hc => (hB c hc).1
  have hBr : (bootstrap env State.start).calls.filterMap Call.released = [] :=
    List.filterMap_eq_nil_iff.2 fun c hc => (hB c hc).2.1
  have hLc : (loopCalls env (setupLocals env) n
      (setup env (bootstrap env State.start)).2).filterMap Call.created = [] :=
    List.filterMap_eq_nil_iff.2 fun c hc => (hL c hc).1
  have hLr : (loopCalls env (setupLocals env) n
      (setup env (bootstrap env State.start)).2).filterMap Call.released = [] :=
    List.filterMap_eq_nil_iff.2 fun c hc => (hL c hc).2.1
  have hbr : (buildCalls env).filterMap Call.released = [] :=
    List.filterMap_eq_nil_iff.2 (buildCalls_released env)
  refine ⟨hcode, ⟨_, hcalls, ?_⟩, ?_, ?_, ?_, ?_⟩
  rotate_left 4
  · intro m hfalse htrue fuel2 hfuel2
    rw [main_eq, loop_of_iterations env _ m _ hfalse htrue fuel2 hfuel2]
    rfl
  · simp only [List.mem_append, List.mem_singleton, not_or]
    refine ⟨⟨⟨fun h => (hB _ h).2.2.1 rfl, buildCalls_not_terminate env⟩, ?_⟩,
      fun h => (hL _ h).2.2.1 rfl, ?_⟩
    · simp [finishCalls]
    · simp
  · rw [hcalls]
    simp only [List.filterMap_append, hBc, hLc, buildCalls_created]
    simp [finishCalls, teardownCalls, Call.created, List.filterMap_cons]
  · rw [hcalls]
    simp only [List.filterMap_append, hBr, hLr, hbr]
    simp [finishCalls, teardownCalls, setupLocals, Call.released, List.filterMap_cons]
  · intro h1 h2 h3
    have hX : ∀ c ∈ (bootstrap env State.start).calls ++ buildCalls env,
        c.released = none := by
      intro c hc
      rcases List.mem_append.1 hc with hc | hc
      · exact (hB c hc).2.1
      · exact buildCalls_released env c hc
    have hY : ∀ c ∈ loopCalls env (setupLocals env) n
        (setup env (bootstrap env State.start)).2 ++
        [Call.glfwWindowShouldClose (bootstrap env State.start).window],
        c.released = none ∧ shaderFree env c := by
      intro c hc
      rcases List.mem_append.1 hc with hc | hc
      · exact ⟨(hL c hc).2.1, loopCalls_shaderFree env n _ c h2 h3 hc⟩
      · rw [List.mem_singleton] at hc
        subst hc
        exact ⟨rfl, by simp [shaderFree, Call.uses]⟩
    rw [hcalls]
    unfold noUseAfterRelease
    rw [List.pairwise_append, List.pairwise_append, List.pairwise_append]
    refine ⟨⟨⟨noUse_of_not_released _ hX, noUse_finishCalls env h1 h2 h3, ?_⟩,
      noUse_of_not_released _ fun c hc => (hY c hc).1, ?_⟩, noUse_teardownCalls _, ?_⟩
    · intro a ha b _
      exact usesReleased_of_not_released a b (hX a ha)
    · intro a ha b hb
      rcases List.mem_append.1 ha with ha | ha
      · exact usesReleased_of_not_released a b (hX a ha)
      · exact finishCalls_shaderFree env a b ha (hY b hb).2
    · intro a ha b hb
      rcases List.mem_append.1 ha with ha | ha
      · rcases List.mem_append.1 ha with ha | ha
        · exact usesReleased_of_not_released a b (hX a ha)
        · exact finishCalls_shaderFree env a b ha (teardownCalls_shaderFree env b h2 h3 hb)
      · exact usesReleased_of_not_released a b (hY a ha).1

/-- C8 on the backend `envPlay`: the run returns after two frames. -/
theorem teardown_releases_handles_witness :
    ∃ t, main envPlay 2 = some (0, t) ∧
      t.calls.filterMap Call.released =
        [⟨HandleKind.shaderOrProgram, 1⟩, ⟨HandleKind.shaderOrProgram, 2⟩,
         ⟨HandleKind.vertexArray, 1⟩, ⟨HandleKind.buffer, 1⟩,
         ⟨HandleKind.shaderOrProgram, 3⟩] ∧
      noUseAfterRelease t.calls :=
  ⟨(teardown (setup envPlay (bootstrap envPlay State.start)).1
      (glfwWindowShouldClose (some 7)
        (iterations envPlay (setup envPlay (bootstrap envPlay State.start)).1 2
          (setup envPlay (bootstrap envPlay State.start)).2)).2).2,
    rfl,
    (teardown_releases_handles envPlay 2 0 _ rfl).2.2.2.1,
    (teardown_releases_handles envPlay 2 0 _ rfl).2.2.2.2.1 (by decide) (by decide)
      (by decide)⟩

/-- C4 on the backend `envPlay`, whose first event poll reports a resize to
1024 x 768: after two passes of the loop the viewport is (0, 0, 1024, 768). -/
theorem viewport_tracks_framebuffer_witness :
    envPlay.initOk = true ∧ envPlay.createdWindow = some 7 ∧
    latestFramebuffer ((SCREEN_WIDTH : Int), (SCREEN_HEIGHT : Int)) (polledEvents envPlay 2)
      = (1024, 768) ∧
    (iterations envPlay (setup envPlay (bootstrap envPlay State.start)).1 2
        (setup envPlay (bootstrap envPlay State.start)).2).viewport =
      some { x := 0, y := 0,
             width := (latestFramebuffer ((SCREEN_WIDTH : Int), (SCREEN_HEIGHT : Int))
               (polledEvents envPlay 2)).1,
             height := (latestFramebuffer ((SCREEN_WIDTH : Int), (SCREEN_HEIGHT : Int))
               (polledEvents envPlay 2)).2 } :=
  ⟨rfl, rfl, rfl, (viewport_tracks_framebuffer envPlay 7 rfl rfl).2.2.1 2⟩

/-- C3 on the backend `envPlay`: the loop started after setup is left after at
most two passes, having emitted the calls of those passes and one more test. -/
theorem frame_loop_trace_witness :
    ∃ t, loop envPlay (setupLocals envPlay) 2
        (setup envPlay (bootstrap envPlay State.start)).2 = some t ∧
      ∃ m, m ≤ 2 ∧
        t.calls = (setup envPlay (bootstrap envPlay State.start)).2.calls ++
          loopCalls envPlay (setupLocals envPlay) m
            (setup envPlay (bootstrap envPlay State.start)).2 ++
          [Call.glfwWindowShouldClose
            (setup envPlay (bootstrap envPlay State.start)).2.window] ∧
        (loopCalls envPlay (setupLocals envPlay) m
            (setup envPlay (bootstrap envPlay State.start)).2 ++
          [Call.glfwWindowShouldClose
            (setup envPlay (bootstrap envPlay State.start)).2.window]).countP Call.isDraw
          = m :=
  ⟨_, rfl,
    (frame_loop_trace envPlay (setupLocals envPlay) 2
      (setup envPlay (bootstrap envPlay State.start)).2).2.2.2.2.2 2 _ rfl⟩

/-- C10 at the last vertex: bytes 24 to 35. -/
theorem geometry_matches_layout_witness :
    fetchRange 3 12 0 2 = (12 * 2, 12 * 2 + 12) ∧ (fetchRange 3 12 0 2).2 ≤ 36 :=
  (geometry_matches_layout envPlay State.start (setupLocals envPlay)).2.2.2.2.2.2.2.1 2
    (by decide)

/-- C7 on the backend `envBadShaders`, where all three steps fail: three
diagnostics are printed and setup runs to its end. -/
theorem setup_logs_and_continues_witness :
    (setup envBadShaders State.start).2.calls =
      [Call.glGenVertexArrays 1 1,
       Call.glBindVertexArray 1,
       Call.glGenBuffers 1 1,
       Call.glBindBuffer GLconst.GL_ARRAY_BUFFER 1,
       Call.glBufferData GLconst.GL_ARRAY_BUFFER 36 vertices GLconst.GL_STATIC_DRAW,
       Call.glCreateShader GLconst.GL_VERTEX_SHADER 1,
       Call.glShaderSource 1 1 vertexShaderSource,
       Call.glCompileShader 1,
       Call.glGetShaderiv 1 GLconst.GL_COMPILE_STATUS,
       Call.glGetShaderInfoLog 1 512,
       Call.cout "Error: Vertex shader compilation failed\n0:1(1): error: unexpected token\n",
       Call.glCreateShader GLconst.GL_FRAGMENT_SHADER 2,
       Call.glShaderSource 2 1 fragmentShaderSource,
       Call.glCompileShader 2,
       Call.glGetShaderiv 2 GLconst.GL_COMPILE_STATUS,
       Call.glGetShaderInfoLog 2 512,
       Call.cout
         "Error: Fragment shader compilation failed\n0:2(1): error: unexpected token\n",
       Call.glCreateProgram 3,
       Call.glAttachShader 3 1,
       Call.glAttachShader 3 2,
       Call.glLinkProgram 3,
       Call.glGetProgramiv 3 GLconst.GL_LINK_STATUS,
       Call.glGetProgramInfoLog 3 512,
       Call.cout "Error: Shader program link failed\nerror: linking with uncompiled shader\n",
       Call.glDeleteShader 1,
       Call.glDeleteShader 2,
       Call.glUseProgram 3,
       Call.glVertexAttribPointer 0 3 GLconst.GL_FLOAT false 12 0,
       Call.glEnableVertexAttribArray 0] ∧
    (buildCalls envBadShaders ++ finishCalls envBadShaders).countP Call.isOutput = 3 :=
  ⟨(setup_logs_and_continues envBadShaders State.start).1,
    (setup_logs_and_continues envBadShaders State.start).2.1⟩

end OpenGLGame
